import Mathlib

/- Batteries marks the arithmetic of `Rat` `@[irreducible]`, which blocks
`decide`-style evaluation of the embedded scoring functions on concrete
inputs; restore semireducibility so concrete scenario computations reduce.
This changes elaboration only — kernel checking is unaffected. -/
set_option allowUnsafeReducibility true
attribute [semireducible] Rat.mul Rat.add Rat.sub Rat.neg Rat.inv Rat.ofScientific

set_option maxRecDepth 100000

/-!
Shallow embedding of the fraud-detection core (signal detectors, synthetic
scorer, bust-out predictor, cluster detector, graph feature extractor and
ensemble orchestrator) of the repository, together with proofs about the
spec's claims.

Modelling conventions:
* Python floats are embedded as exact rationals (`ℚ`); decimal literals such
  as `0.3` denote the exact rational 3/10.
* External collaborators (Redis velocity store, credit bureau connector,
  Neo4j graph) are embedded as optional pure data parameters: `none` models
  a missing/unreachable collaborator, `some d` models a collaborator whose
  queries return the data recorded in `d`.
* Wall-clock quantities are embedded as pre-computed inputs: the claimed age
  in years (`(now - dob).days / 365` in the source) is a rational parameter,
  and per-record datetimes (`scored_at`, `analyzed_at`, `predicted_at`) are
  dropped since no scoring logic reads them back.
* Python dict payloads read through `.get(key, default)` are embedded as
  structures whose fields default to the corresponding `.get` default.
-/

namespace FraudDetection

/-! ## Velocity analyzer (src/detection/velocity_analyzer.py) -/

/-- PII element types handled by `VelocityAnalyzer`. -/
inductive ElementType
  | address
  | phone
  | email
  | device
deriving DecidableEq

/-- Defaults of `VelocitySettings` in src/config/settings.py. -/
structure VelocitySettings where
  address_max_identities_6mo : ℕ := 5
  phone_max_identities_6mo : ℕ := 3
  email_max_identities_6mo : ℕ := 2

/-- The settings instance produced by `get_settings()` with no environment
overrides. -/
def defaultVelocitySettings : VelocitySettings := {}

/-- Velocity metrics for a single element (`ElementVelocity` dataclass);
timestamps and the memoised `velocity_score` field are dropped — the score is
recomputed by `calculateElementScore`. -/
structure ElementVelocity where
  element_hash : String
  unique_identities_30d : ℕ
  unique_identities_90d : ℕ
  unique_identities_180d : ℕ
  unique_ssns_30d : ℕ
  unique_ssns_90d : ℕ
  unique_ssns_180d : ℕ

/-- `_empty_element_velocity`: the defined result when Redis is unavailable. -/
def emptyElementVelocity (element_hash : String) : ElementVelocity :=
  ⟨element_hash, 0, 0, 0, 0, 0, 0⟩

/-- The per-type identity threshold used by `_calculate_element_score`
(`thresholds` dict: configured values for address/phone/email, literal 3 for
device). -/
def velocityThreshold (s : VelocitySettings) : ElementType → ℕ
  | .address => s.address_max_identities_6mo
  | .phone => s.phone_max_identities_6mo
  | .email => s.email_max_identities_6mo
  | .device => 3

/-- `VelocityAnalyzer._calculate_element_score`: 0 for at most one identity;
linear in the identity/threshold ratio up to 0.3 at the threshold; above it,
0.3 + 0.233 per excess threshold multiple (capped at 3 extra multiples);
+0.05 per extra distinct SSN capped at +0.2; multiplied by 1.2 when more than
half of the 180-day identities appeared in the last 30 days; capped at 1. -/
def calculateElementScore (s : VelocitySettings) (etype : ElementType)
    (v : ElementVelocity) : ℚ :=
  let threshold : ℚ := (velocityThreshold s etype : ℚ)
  if v.unique_identities_180d ≤ 1 then 0
  else
    let ratio : ℚ := (v.unique_identities_180d : ℚ) / threshold
    let base : ℚ :=
      if ratio ≤ 1 then ratio * 0.3
      else 0.3 + min (ratio - 1) 3 * 0.233
    let base : ℚ :=
      if 1 < v.unique_ssns_180d then
        base + min 0.2 (((v.unique_ssns_180d : ℚ) - 1) * 0.05)
      else base
    let base : ℚ :=
      if 0 < v.unique_identities_180d ∧
          (v.unique_identities_30d : ℚ) / (v.unique_identities_180d : ℚ) > 0.5
      then base * 1.2
      else base
    min 1 base

/-- A velocity store: the data Redis returns for `(element_type, hash)`.
`none` for the whole store models `VelocityAnalyzer(redis_client=None)`. -/
def VelocityStore : Type := ElementType → String → ElementVelocity

/-- `_get_element_velocity` composed with score computation: with no Redis
client the empty velocity (score 0) is returned. -/
def getElementVelocity (store : Option VelocityStore) (s : VelocitySettings)
    (etype : ElementType) (element_hash : String) : ElementVelocity :=
  match store with
  | none => emptyElementVelocity element_hash
  | some f => f etype element_hash

/-- Velocity score of one element as computed inside
`_get_element_velocity` (`velocity.velocity_score`). -/
def getElementVelocityScore (store : Option VelocityStore)
    (s : VelocitySettings) (etype : ElementType) (element_hash : String) : ℚ :=
  match store with
  | none => 0
  | some f => calculateElementScore s etype (f etype element_hash)

/-- `_calculate_overall_score`: address 0.25, phone 0.35, email 0.20,
device 0.20, capped at 1. -/
def calculateOverallScore (address phone email device : ℚ) : ℚ :=
  min 1 (address * 0.25 + phone * 0.35 + email * 0.20 + device * 0.20)

/-- `_identify_anomalies`, in source append order. -/
def identifyAnomalies (address phone email device : ℚ) : List String :=
  (if address > 0.5 then ["HIGH_ADDRESS_VELOCITY"] else []) ++
  (if phone > 0.5 then ["HIGH_PHONE_VELOCITY"] else []) ++
  (if email > 0.5 then ["HIGH_EMAIL_VELOCITY"] else []) ++
  (if device > 0.5 then ["SHARED_DEVICE"] else []) ++
  (if address > 0.3 ∧ phone > 0.3 then ["ADDRESS_PHONE_CORRELATION"] else [])

/-- `VelocityAnalyzer._determine_risk_level`. -/
def determineVelocityRiskLevel (overall_score : ℚ)
    (anomalies : List String) : String :=
  if overall_score ≥ 0.8 ∨ 4 ≤ anomalies.length then "critical"
  else if overall_score ≥ 0.6 ∨ 3 ≤ anomalies.length then "high"
  else if overall_score ≥ 0.4 ∨ 2 ≤ anomalies.length then "medium"
  else if overall_score ≥ 0.2 ∨ 1 ≤ anomalies.length then "low"
  else "minimal"

/-- `VelocityAnalysis` dataclass. -/
structure VelocityAnalysis where
  identity_id : String
  address_velocity : ℚ
  phone_velocity : ℚ
  email_velocity : ℚ
  device_velocity : ℚ
  overall_velocity_score : ℚ
  anomalies : List String
  risk_level : String

/-- `VelocityAnalyzer.analyze`. -/
def velocityAnalyze (store : Option VelocityStore) (s : VelocitySettings)
    (identity_id ssn_hash address_hash phone_hash email_hash : String)
    (device_fingerprint : Option String) : VelocityAnalysis :=
  let address_velocity := getElementVelocityScore store s .address address_hash
  let phone_velocity := getElementVelocityScore store s .phone phone_hash
  let email_velocity := getElementVelocityScore store s .email email_hash
  let device_velocity :=
    match device_fingerprint with
    | some fp => getElementVelocityScore store s .device fp
    | none => 0
  let overall_score :=
    calculateOverallScore address_velocity phone_velocity email_velocity
      device_velocity
  let anomalies :=
    identifyAnomalies address_velocity phone_velocity email_velocity
      device_velocity
  { identity_id := identity_id
    address_velocity := address_velocity
    phone_velocity := phone_velocity
    email_velocity := email_velocity
    device_velocity := device_velocity
    overall_velocity_score := overall_score
    anomalies := anomalies
    risk_level := determineVelocityRiskLevel overall_score anomalies }

/-! ## Credit bureau data and credit-behavior analyzer
(src/detection/credit_behavior.py) -/

/-- The slice of a bureau credit file consumed by the analyzers
(`credit_file.num_tradelines`). -/
structure CreditFile where
  num_tradelines : ℕ

/-- A tradeline as consumed by `AuthorizedUserDetector._get_au_accounts`;
`opened_days_ago` embeds `(datetime.now() - tradeline.opened_date).days`. -/
structure Tradeline where
  tradeline_id : String
  is_authorized_user : Bool
  opened_days_ago : ℕ
  credit_limit : ℚ

/-- The data a live credit-bureau connector returns; one field per connector
method used by the detection layer. -/
structure BureauData where
  credit_file_age_months : Option ℤ
  credit_file : Option CreditFile
  authorized_user_count : ℕ
  tradelines : List Tradeline

/-- `CreditBehaviorAnalyzer._get_file_age`. -/
def getFileAge (bureau : Option BureauData) : Option ℤ :=
  match bureau with
  | some b => b.credit_file_age_months
  | none => none

/-- `CreditBehaviorAnalyzer._get_tradeline_count`. -/
def getTradelineCount (bureau : Option BureauData) : ℕ :=
  match bureau with
  | some b =>
    match b.credit_file with
    | some f => f.num_tradelines
    | none => 0
  | none => 0

/-- `CreditBehaviorAnalyzer._get_au_account_count`. -/
def getAuAccountCount (bureau : Option BureauData) : ℕ :=
  match bureau with
  | some b => b.authorized_user_count
  | none => 0

/-- `CreditBehaviorAnalyzer._calculate_credit_velocity` is an unimplemented
placeholder in the source that always returns 0.0. -/
def calculateCreditVelocity : ℚ := 0

/-- `CreditBehaviorAnalysis` dataclass. -/
structure CreditBehaviorAnalysis where
  identity_id : String
  is_thin_file : Bool
  file_age_months : Option ℤ
  num_tradelines : ℕ
  num_authorized_user_accounts : ℕ
  au_to_primary_ratio : ℚ
  credit_building_velocity : ℚ
  behavior_score : ℚ
  anomalies : List String

/-- `CreditBehaviorAnalyzer._calculate_behavior_score`. -/
def calculateBehaviorScore (is_thin_file : Bool)
    (au_ratio credit_velocity : ℚ) (anomalies : List String)
    (claimed_age_years : ℚ) : ℚ :=
  let score : ℚ := 0
  let score := if is_thin_file then score + 0.2 else score
  let score :=
    if is_thin_file ∧ claimed_age_years > 35 then score + 0.3 else score
  let score := if au_ratio > 0.5 then score + au_ratio * 0.4 else score
  let score := score + credit_velocity * 0.3
  let score :=
    if "FILE_AGE_MISMATCH" ∈ anomalies then score + 0.4 else score
  min 1 score

/-- `CreditBehaviorAnalyzer.analyze`; `claimed_age_years` embeds
`(datetime.now() - claimed_dob).days / 365`. -/
def creditAnalyze (bureau : Option BureauData)
    (identity_id ssn_hash : String) (claimed_age_years : ℚ) :
    CreditBehaviorAnalysis :=
  let file_age_months := getFileAge bureau
  let num_tradelines := getTradelineCount bureau
  let au_accounts := getAuAccountCount bureau
  let is_thin_file := num_tradelines < 3
  let au_ratio : ℚ :=
    if 0 < num_tradelines then (au_accounts : ℚ) / (num_tradelines : ℚ) else 0
  let credit_velocity := calculateCreditVelocity
  let anomalies : List String :=
    (match file_age_months with
     | some fa =>
       if (fa : ℚ) < max 0 ((claimed_age_years - 18) * 12) * 0.3 then
         ["FILE_AGE_MISMATCH"]
       else []
     | none => []) ++
    (if is_thin_file ∧ claimed_age_years > 30 then
       ["THIN_FILE_OLD_IDENTITY"] else []) ++
    (if au_ratio > 0.6 ∧ 3 ≤ au_accounts then ["AU_ABUSE_PATTERN"] else []) ++
    (if credit_velocity > 0.7 then ["RAPID_CREDIT_BUILDING"] else [])
  { identity_id := identity_id
    is_thin_file := is_thin_file
    file_age_months := file_age_months
    num_tradelines := num_tradelines
    num_authorized_user_accounts := au_accounts
    au_to_primary_ratio := au_ratio
    credit_building_velocity := credit_velocity
    behavior_score :=
      calculateBehaviorScore is_thin_file au_ratio credit_velocity anomalies
        claimed_age_years
    anomalies := anomalies }

/-! ## Authorized-user abuse detector (src/detection/authorized_user.py) -/

/-- `AUAccount` dataclass; `added_days_ago` embeds
`(datetime.now() - added_date).days`; the optional relationship field is
dropped (the source never sets it to anything but `None`). -/
structure AUAccount where
  account_id : String
  primary_holder_ssn_hash : String
  added_days_ago : ℕ
  credit_limit : ℚ
  account_age_months : ℕ

/-- `AuthorizedUserDetector._get_au_accounts`: no bureau gives no accounts;
otherwise each authorized-user tradeline becomes an `AUAccount` with empty
primary-holder hash and `account_age_months = 0` (source placeholders). -/
def getAuAccounts (bureau : Option BureauData) : List AUAccount :=
  match bureau with
  | none => []
  | some b =>
    (b.tradelines.filter (·.is_authorized_user)).map
      (fun t => ⟨t.tradeline_id, "", t.opened_days_ago, t.credit_limit, 0⟩)

/-- `AuthorizedUserDetector._check_relationship` is an unimplemented
placeholder that always returns `None`. -/
def checkRelationship (identity_id other_ssn_hash : String) : Option String :=
  none

/-- `AuthorizedUserDetector._count_unrelated_au`: 0 without a graph client;
with one, every account whose (always-`None`) relationship lookup fails. -/
def countUnrelatedAu (graphPresent : Bool) (au_accounts : List AUAccount)
    (identity_id : String) : ℕ :=
  if graphPresent then
    (au_accounts.filter
      (fun au =>
        (checkRelationship identity_id au.primary_holder_ssn_hash).isNone)).length
  else 0

/-- `AuthorizedUserDetector._identify_abuse_indicators`, in source append
order (thresholds 6 = HIGH_RISK_AU_COUNT, 4 = MIN_SUSPICIOUS_AU_COUNT). -/
def identifyAbuseIndicators (au_accounts : List AUAccount)
    (au_count unrelated_count : ℕ) : List String :=
  (if 6 ≤ au_count then ["EXCESSIVE_AU_ACCOUNTS"]
   else if 4 ≤ au_count then ["HIGH_AU_COUNT"]
   else []) ++
  (if 0 < au_count ∧ (unrelated_count : ℚ) / (au_count : ℚ) > 0.7 then
     ["MOSTLY_UNRELATED_AU"] else []) ++
  (if 0 < au_count ∧
      3 ≤ (au_accounts.filter (·.added_days_ago < 180)).length then
     ["RAPID_AU_ADDITIONS"] else []) ++
  (if 2 ≤ (au_accounts.filter (·.credit_limit > 10000)).length then
     ["HIGH_LIMIT_AU_ACCOUNTS"] else []) ++
  (if 2 ≤ (au_accounts.filter (·.account_age_months < 6)).length then
     ["AU_ON_NEW_ACCOUNTS"] else [])

/-- Per-indicator weight table of `_calculate_abuse_probability`
(`indicator_weights.get(indicator, 0.05)`). -/
def auIndicatorWeight (indicator : String) : ℚ :=
  if indicator = "EXCESSIVE_AU_ACCOUNTS" then 0.2
  else if indicator = "MOSTLY_UNRELATED_AU" then 0.25
  else if indicator = "RAPID_AU_ADDITIONS" then 0.15
  else if indicator = "HIGH_LIMIT_AU_ACCOUNTS" then 0.1
  else if indicator = "AU_ON_NEW_ACCOUNTS" then 0.1
  else 0.05

/-- `AuthorizedUserDetector._calculate_abuse_probability`. -/
def calculateAbuseProbability (au_count unrelated_count : ℕ)
    (indicators : List String) : ℚ :=
  let probability : ℚ :=
    if 6 ≤ au_count then 0.4
    else if 4 ≤ au_count then 0.25
    else if 3 ≤ au_count then 0.1
    else 0
  let probability :=
    if 0 < au_count then
      probability + (unrelated_count : ℚ) / (au_count : ℚ) * 0.3
    else probability
  let probability :=
    indicators.foldl (fun acc i => acc + auIndicatorWeight i) probability
  min 1 probability

/-- `AuthorizedUserDetector._determine_risk_level`. -/
def determineAuRiskLevel (abuse_prob : ℚ) (indicators : List String) :
    String :=
  if abuse_prob ≥ 0.8 ∨ "EXCESSIVE_AU_ACCOUNTS" ∈ indicators then "critical"
  else if abuse_prob ≥ 0.6 then "high"
  else if abuse_prob ≥ 0.4 then "medium"
  else if abuse_prob ≥ 0.2 then "low"
  else "minimal"

/-- `AUAbuseAnalysis` dataclass. -/
structure AUAbuseAnalysis where
  identity_id : String
  ssn_hash : String
  au_account_count : ℕ
  unrelated_au_count : ℕ
  au_accounts : List AUAccount
  abuse_probability : ℚ
  abuse_indicators : List String
  risk_level : String

/-- `AuthorizedUserDetector.analyze`; `graphPresent` records whether a graph
client was injected. -/
def auAnalyze (bureau : Option BureauData) (graphPresent : Bool)
    (identity_id ssn_hash : String) : AUAbuseAnalysis :=
  let au_accounts := getAuAccounts bureau
  let au_count := au_accounts.length
  let unrelated_count := countUnrelatedAu graphPresent au_accounts identity_id
  let indicators := identifyAbuseIndicators au_accounts au_count unrelated_count
  let abuse_prob := calculateAbuseProbability au_count unrelated_count indicators
  { identity_id := identity_id
    ssn_hash := ssn_hash
    au_account_count := au_count
    unrelated_au_count := unrelated_count
    au_accounts := au_accounts
    abuse_probability := abuse_prob
    abuse_indicators := indicators
    risk_level := determineAuRiskLevel abuse_prob indicators }

/-! ## Synthetic scorer (src/detection/synthetic_scorer.py) -/

/-- Defaults of `ScoringSettings` in src/config/settings.py. -/
structure ScoringSettings where
  ssn_signals_weight : ℚ := 0.25
  graph_features_weight : ℚ := 0.30
  velocity_signals_weight : ℚ := 0.20
  credit_behavior_weight : ℚ := 0.15
  device_binding_weight : ℚ := 0.10
  high_risk_threshold : ℚ := 0.80
  medium_risk_threshold : ℚ := 0.50
  review_threshold : ℚ := 0.30

/-- The settings instance produced by `get_settings()` with no environment
overrides. -/
def defaultScoringSettings : ScoringSettings := {}

/-- The `ssn_signals` dict payload; each field defaults to the falsy value
`dict.get` yields for an absent key. -/
structure SsnSignals where
  ssn_dob_mismatch : Bool := false
  death_master_match : Bool := false
  invalid_ssn : Bool := false
  itin_as_ssn : Bool := false
  multiple_ssns : Bool := false

/-- The `graph_features` dict payload with its `.get` defaults
(`cluster_size` defaults to 1, the rest to 0). -/
structure GraphFeatureSignals where
  shared_ssn_count : ℕ := 0
  cluster_density : ℚ := 0
  cluster_size : ℕ := 1
  neighbor_avg_synthetic_score : ℚ := 0

/-- The `velocity_signals` dict payload. -/
structure VelocitySignals where
  address_velocity_score : ℚ := 0
  phone_velocity_score : ℚ := 0
  email_velocity_score : ℚ := 0

/-- The `credit_behavior` dict payload. -/
structure CreditSignals where
  is_thin_file : Bool := false
  file_age_mismatch : Bool := false
  rapid_credit_building : Bool := false
  au_abuse_pattern : Bool := false

/-- The `device_signals` dict payload. -/
structure DeviceSignals where
  weak_binding : Bool := false
  shared_device_count : ℕ := 0
  known_fraud_device : Bool := false
  emulator_detected : Bool := false

/-- `SyntheticScorer._score_ssn_signals`. -/
def scoreSsnSignals (signals : SsnSignals) : ℚ :=
  let score : ℚ := 0
  let score := if signals.ssn_dob_mismatch then score + 0.6 else score
  let score := if signals.death_master_match then score + 0.8 else score
  let score := if signals.invalid_ssn then score + 0.5 else score
  let score := if signals.itin_as_ssn then score + 0.4 else score
  let score := if signals.multiple_ssns then score + 0.5 else score
  min 1 score

/-- `SyntheticScorer._score_graph_features`. -/
def scoreGraphFeatures (features : GraphFeatureSignals) : ℚ :=
  let score : ℚ := 0
  let score :=
    if 0 < features.shared_ssn_count then
      score + min 0.6 ((features.shared_ssn_count : ℚ) * 0.3)
    else score
  let score := if features.cluster_density > 0.5 then score + 0.2 else score
  let score :=
    if 5 < features.cluster_size then
      score + min 0.3 (((features.cluster_size : ℚ) - 5) * 0.05)
    else score
  let score :=
    if features.neighbor_avg_synthetic_score > 0.5 then score + 0.2 else score
  min 1 score

/-- `SyntheticScorer._score_velocity`. -/
def scoreVelocity (signals : VelocitySignals) : ℚ :=
  min 1 (signals.address_velocity_score * 0.3 +
    signals.phone_velocity_score * 0.4 + signals.email_velocity_score * 0.3)

/-- `SyntheticScorer._score_credit_behavior`. -/
def scoreCreditBehavior (signals : CreditSignals) : ℚ :=
  let score : ℚ := 0
  let score := if signals.is_thin_file then score + 0.2 else score
  let score := if signals.file_age_mismatch then score + 0.4 else score
  let score := if signals.rapid_credit_building then score + 0.3 else score
  let score := if signals.au_abuse_pattern then score + 0.5 else score
  min 1 score

/-- `SyntheticScorer._score_device`. -/
def scoreDevice (signals : DeviceSignals) : ℚ :=
  let score : ℚ := 0
  let score := if signals.weak_binding then score + 0.3 else score
  let score := if 3 < signals.shared_device_count then score + 0.4 else score
  let score := if signals.known_fraud_device then score + 0.8 else score
  let score := if signals.emulator_detected then score + 0.5 else score
  min 1 score

/-- `SyntheticScorer._get_triggered_signals`, in source append order. -/
def getTriggeredSignals (ssn_signals : SsnSignals)
    (graph_features : GraphFeatureSignals) (velocity_signals : VelocitySignals)
    (credit_behavior : CreditSignals) (device_signals : DeviceSignals) :
    List String :=
  (if ssn_signals.ssn_dob_mismatch then ["SSN_DOB_MISMATCH"] else []) ++
  (if ssn_signals.death_master_match then ["DEATH_MASTER_MATCH"] else []) ++
  (if ssn_signals.multiple_ssns then ["MULTIPLE_SSNS"] else []) ++
  (if 0 < graph_features.shared_ssn_count then ["SHARED_SSN"] else []) ++
  (if 5 < graph_features.cluster_size then ["LARGE_CLUSTER"] else []) ++
  (if velocity_signals.address_velocity_score > 0.5 then
     ["HIGH_ADDRESS_VELOCITY"] else []) ++
  (if velocity_signals.phone_velocity_score > 0.5 then
     ["HIGH_PHONE_VELOCITY"] else []) ++
  (if credit_behavior.is_thin_file then ["THIN_FILE"] else []) ++
  (if credit_behavior.au_abuse_pattern then ["AU_ABUSE"] else []) ++
  (if device_signals.known_fraud_device then ["FRAUD_DEVICE"] else [])

/-- The five component scores, keyed as in the `component_scores` dict. -/
structure ComponentScores where
  ssn : ℚ
  graph : ℚ
  velocity : ℚ
  credit : ℚ
  device : ℚ

/-- The `component_scores` dict in insertion order, as (name, score) pairs. -/
def componentList (c : ComponentScores) : List (String × ℚ) :=
  [("ssn", c.ssn), ("graph", c.graph), ("velocity", c.velocity),
   ("credit", c.credit), ("device", c.device)]

/-- Head of `sorted(component_scores.items(), key=value, reverse=True)`: the
earliest pair attaining the maximal score (Python sort is stable). -/
def topComponent (c : ComponentScores) : String × ℚ :=
  (componentList c).foldl
    (fun best item => if item.2 > best.2 then item else best) ("ssn", c.ssn)

/-- Uppercase form of the risk-level strings (`risk_level.upper()`). -/
def upperRiskLevel (level : String) : String :=
  if level = "minimal" then "MINIMAL"
  else if level = "low" then "LOW"
  else if level = "medium" then "MEDIUM"
  else if level = "high" then "HIGH"
  else if level = "critical" then "CRITICAL"
  else level

/-- Rendering of a score for explanation text. The Python code formats with
`{:.2f}`; the embedding renders the exact rational instead (the precise
digit string is irrelevant to every claim). -/
def formatScore (q : ℚ) : String :=
  toString q.num ++ "/" ++ toString q.den

/-- `SyntheticScorer._generate_explanation` (numeric rendering via
`formatScore`). -/
def generateSyntheticExplanation (component_scores : ComponentScores)
    (triggered : List String) (risk_level : String) : String :=
  if risk_level = "minimal" then
    "No significant synthetic identity indicators detected."
  else
    let parts := ["Risk level: " ++ upperRiskLevel risk_level ++ "."]
    let top := topComponent component_scores
    let parts :=
      if top.2 > 0.3 then
        parts ++ ["Primary risk factor: " ++ top.1 ++ " signals (score: " ++
          formatScore top.2 ++ ")."]
      else parts
    let parts :=
      if triggered ≠ [] then
        parts ++
          ["Triggered signals: " ++ String.intercalate ", " (triggered.take 5)
            ++ "."]
      else parts
    String.intercalate " " parts

/-- Stand-in type for a joblib-loaded synthetic-scorer model object. The
scoring path never calls it, so its content is irrelevant; a predict
function over a feature vector is representative. -/
def SyntheticModel : Type := List ℚ → ℚ

/-- The `SyntheticScorer` object state: `self._settings` (from
`get_settings()`) and `self._model` (set only when a model path was given
and loading succeeded). -/
structure SyntheticScorerState where
  settings : ScoringSettings
  model : Option SyntheticModel

/-- `SyntheticScorer.__init__` seen through its resulting state: settings
always come from the cached `get_settings()`; `modelLoaded` is the outcome
of the optional `load_model` call. -/
def mkSyntheticScorer (modelLoaded : Option SyntheticModel) :
    SyntheticScorerState :=
  { settings := defaultScoringSettings, model := modelLoaded }

/-- `SyntheticScore` dataclass (without the `scored_at` timestamp). -/
structure SyntheticScore where
  identity_id : String
  score : ℚ
  risk_level : String
  component_scores : ComponentScores
  triggered_signals : List String
  explanation : String

/-- `SyntheticScorer.score`. Note that the body consults only
`self._settings`, never `self._model`. -/
def syntheticScore (scorer : SyntheticScorerState) (identity_id : String)
    (ssn_signals : SsnSignals) (graph_features : GraphFeatureSignals)
    (velocity_signals : VelocitySignals) (credit_behavior : CreditSignals)
    (device_signals : DeviceSignals) : SyntheticScore :=
  let weights := scorer.settings
  let ssn_score := scoreSsnSignals ssn_signals
  let graph_score := scoreGraphFeatures graph_features
  let velocity_score := scoreVelocity velocity_signals
  let credit_score := scoreCreditBehavior credit_behavior
  let device_score := scoreDevice device_signals
  let component_scores : ComponentScores :=
    ⟨ssn_score, graph_score, velocity_score, credit_score, device_score⟩
  let final_score :=
    ssn_score * weights.ssn_signals_weight +
    graph_score * weights.graph_features_weight +
    velocity_score * weights.velocity_signals_weight +
    credit_score * weights.credit_behavior_weight +
    device_score * weights.device_binding_weight
  let triggered :=
    getTriggeredSignals ssn_signals graph_features velocity_signals
      credit_behavior device_signals
  let risk_level :=
    if final_score ≥ weights.high_risk_threshold then
      if final_score ≥ 0.9 then "critical" else "high"
    else if final_score ≥ weights.medium_risk_threshold then "medium"
    else if final_score ≥ weights.review_threshold then "low"
    else "minimal"
  { identity_id := identity_id
    score := final_score
    risk_level := risk_level
    component_scores := component_scores
    triggered_signals := triggered
    explanation :=
      generateSyntheticExplanation component_scores triggered risk_level }

/-! ## Bust-out predictor (src/detection/bust_out_predictor.py) -/

/-- Arithmetic mean (`np.mean`); callers guard non-emptiness. -/
def listMean (l : List ℚ) : ℚ := l.sum / (l.length : ℚ)

/-- Maximum of a list (`np.max`); callers guard non-emptiness. -/
def listMax (l : List ℚ) : ℚ := (l.max?).getD 0

/-- Minimum of a list (`np.min`); callers guard non-emptiness. -/
def listMin (l : List ℚ) : ℚ := (l.min?).getD 0

/-- Python slice `l[-k:]`. -/
def lastN (k : ℕ) (l : List ℚ) : List ℚ := l.drop (l.length - k)

/-- Python slice `l[:-k]`. -/
def dropLastN (k : ℕ) (l : List ℚ) : List ℚ := l.take (l.length - k)

/-- Successive differences (`np.diff`). -/
def listDiff (l : List ℚ) : List ℚ := List.zipWith (fun a b => b - a) l l.tail

/-- Least-squares slope of `np.polyfit(range(n), ys, 1)[0]` over the sample
points 0, 1, …, n−1; 0 when the normal-equation denominator vanishes
(callers guard n ≥ 3). -/
def polyfitSlope (ys : List ℚ) : ℚ :=
  let n : ℚ := (ys.length : ℚ)
  let xs : List ℚ := (List.range ys.length).map (fun i => (i : ℚ))
  let sx := xs.sum
  let sy := ys.sum
  let sxy := (List.zipWith (· * ·) xs ys).sum
  let sxx := (xs.map (fun x => x * x)).sum
  let d := n * sxx - sx * sx
  if d = 0 then 0 else (n * sxy - sx * sy) / d

/-- `CreditSequence` dataclass. -/
structure CreditSequence where
  account_id : String
  monthly_balances : List ℚ
  monthly_payments : List ℚ
  credit_limit_changes : List ℚ
  utilization_rates : List ℚ
  cash_advance_amounts : List ℚ
  months_on_books : ℕ

/-- The features dict of `_extract_sequence_features`: `none` models an
absent key (so `.get(key, 0)` reads become `getD 0`). `balance_volatility`
(`np.std`, an irrational square root consumed only by the trained-model
vector path) is omitted. -/
structure BustOutFeatures where
  balance_trend : Option ℚ := none
  max_balance : Option ℚ := none
  recent_balance_increase : Option ℚ := none
  avg_payment : Option ℚ := none
  payment_trend : Option ℚ := none
  min_payment_ratio : Option ℚ := none
  declining_payments : Option Bool := none
  avg_utilization : Option ℚ := none
  max_utilization : Option ℚ := none
  utilization_trend : Option ℚ := none
  total_cash_advances : Option ℚ := none
  cash_advance_frequency : Option ℚ := none
  recent_cash_advances : Option ℚ := none
  total_limit_increases : Option ℚ := none
  recent_limit_increase : Option ℚ := none
  months_on_books : ℕ := 0
  synthetic_score : Option ℚ := none

/-- `BustOutPredictor._extract_sequence_features`. -/
def extractSequenceFeatures (seq : CreditSequence) : BustOutFeatures :=
  let f : BustOutFeatures := {}
  let f :=
    if 3 ≤ seq.monthly_balances.length then
      { f with
        balance_trend := some (polyfitSlope seq.monthly_balances)
        max_balance := some (listMax seq.monthly_balances)
        recent_balance_increase :=
          some (seq.monthly_balances.getLastD 0 -
            (lastN 3 seq.monthly_balances).headD 0) }
    else f
  let f :=
    if 3 ≤ seq.monthly_payments.length then
      { f with
        avg_payment := some (listMean seq.monthly_payments)
        payment_trend := some (polyfitSlope seq.monthly_payments)
        min_payment_ratio :=
          some (if listMax seq.monthly_payments > 0 then
            listMin seq.monthly_payments / listMax seq.monthly_payments
          else 0)
        declining_payments :=
          some (if 6 ≤ seq.monthly_payments.length then
            decide (listMean (lastN 3 seq.monthly_payments) <
              listMean (dropLastN 3 seq.monthly_payments) * 0.8)
          else false) }
    else f
  let f :=
    if 3 ≤ seq.utilization_rates.length then
      { f with
        avg_utilization := some (listMean seq.utilization_rates)
        max_utilization := some (listMax seq.utilization_rates)
        utilization_trend := some (polyfitSlope seq.utilization_rates) }
    else f
  let f :=
    if seq.cash_advance_amounts ≠ [] then
      { f with
        total_cash_advances := some seq.cash_advance_amounts.sum
        cash_advance_frequency :=
          some ((seq.cash_advance_amounts.filter (0 < ·)).length : ℚ)
        recent_cash_advances :=
          some (if 3 ≤ seq.cash_advance_amounts.length then
            (lastN 3 seq.cash_advance_amounts).sum
          else seq.cash_advance_amounts.sum) }
    else f
  let f :=
    if seq.credit_limit_changes ≠ [] then
      { f with
        total_limit_increases :=
          some (seq.credit_limit_changes.filter (0 < ·)).sum
        recent_limit_increase := some (seq.credit_limit_changes.getLastD 0) }
    else f
  { f with months_on_books := seq.months_on_books }

/-- Stand-in type for a joblib-loaded bust-out model: its
`predict_proba`-derived probability as a function of the features. -/
def BustOutModel : Type := BustOutFeatures → ℚ

/-- `BustOutPredictor._calculate_probability`: trained model if loaded,
otherwise the rule-based accumulation. -/
def calculateBustOutProbability (model : Option BustOutModel)
    (f : BustOutFeatures) : ℚ :=
  match model with
  | some g => g f
  | none =>
    let probability : ℚ := 0
    let probability :=
      if f.utilization_trend.getD 0 > 0.05 then probability + 0.2
      else probability
    let probability :=
      if f.max_utilization.getD 0 > 0.9 then probability + 0.15
      else probability
    let probability :=
      if f.declining_payments.getD false then probability + 0.25
      else probability
    let probability :=
      if f.payment_trend.getD 0 < -100 then probability + 0.15
      else probability
    let probability :=
      if f.cash_advance_frequency.getD 0 > 2 then probability + 0.2
      else probability
    let probability :=
      if f.recent_cash_advances.getD 0 > 1000 then probability + 0.15
      else probability
    let probability :=
      if f.months_on_books < 12 ∧ f.balance_trend.getD 0 > 500 then
        probability + 0.2
      else probability
    let probability :=
      if f.synthetic_score.getD 0 > 0.7 then probability + 0.3
      else probability
    min 1 probability

/-- `BustOutPredictor._identify_warning_signals`, in source append order. -/
def identifyWarningSignals (f : BustOutFeatures) : List String :=
  (if f.max_utilization.getD 0 > 0.95 then ["MAXED_OUT"] else []) ++
  (if f.declining_payments.getD false then ["DECLINING_PAYMENTS"] else []) ++
  (if 3 ≤ f.cash_advance_frequency.getD 0 then ["FREQUENT_CASH_ADVANCES"]
   else []) ++
  (if f.utilization_trend.getD 0 > 0.1 then ["RAPID_UTILIZATION_INCREASE"]
   else []) ++
  (if f.balance_trend.getD 0 > 1000 then ["RAPID_BALANCE_GROWTH"] else []) ++
  (if f.synthetic_score.getD 0 > 0.7 then ["HIGH_SYNTHETIC_RISK"] else [])

/-- `BustOutPredictor._estimate_time_to_bust_out` (`int(...)` truncation is
`Int.floor`; the truncated value is always positive there). -/
def estimateTimeToBustOut (seq : CreditSequence) : ℤ :=
  if seq.utilization_rates.length < 3 then 90
  else
    let current_util := seq.utilization_rates.getLastD 0
    let diffs := listDiff (lastN 6 seq.utilization_rates)
    let util_trend := listMean diffs
    if current_util ≥ 0.95 then 30
    else if util_trend > 0 then
      let remaining := 1 - current_util
      let months_to_max := remaining / util_trend
      Int.floor (min 90 (max 7 (months_to_max * 30)))
    else 90

/-- Defaults of `BustOutSettings` in src/config/settings.py. -/
structure BustOutSettings where
  threshold : ℚ := 0.75

/-- The settings instance produced by `get_settings()` with no environment
overrides. -/
def defaultBustOutSettings : BustOutSettings := {}

/-- `BustOutPredictor._determine_risk_action`. -/
def determineBustOutRiskAction (s : BustOutSettings) (probability : ℚ) :
    String × String :=
  if probability ≥ 0.9 then ("critical", "IMMEDIATE_REVIEW_CREDIT_FREEZE")
  else if probability ≥ s.threshold then ("high", "URGENT_REVIEW_REDUCE_LIMIT")
  else if probability ≥ 0.5 then ("medium", "MONITOR_CLOSELY")
  else if probability ≥ 0.3 then ("low", "STANDARD_MONITORING")
  else ("minimal", "NO_ACTION")

/-- `BustOutPrediction` dataclass (without the `predicted_at` timestamp). -/
structure BustOutPrediction where
  account_id : String
  identity_id : String
  bust_out_probability : ℚ
  days_to_bust_out : Option ℤ
  risk_level : String
  warning_signals : List String
  recommended_action : String

/-- `BustOutPredictor.predict`; `model = none` is the state of a predictor
constructed without a model path. -/
def bustOutPredict (model : Option BustOutModel) (s : BustOutSettings)
    (account_id identity_id : String) (credit_sequence : CreditSequence)
    (synthetic_score : Option ℚ) : BustOutPrediction :=
  let features := extractSequenceFeatures credit_sequence
  let features :=
    match synthetic_score with
    | some sc => { features with synthetic_score := some sc }
    | none => features
  let probability := calculateBustOutProbability model features
  let signals := identifyWarningSignals features
  let days_to_bust_out :=
    if probability > 0.5 then some (estimateTimeToBustOut credit_sequence)
    else none
  let ra := determineBustOutRiskAction s probability
  { account_id := account_id
    identity_id := identity_id
    bust_out_probability := probability
    days_to_bust_out := days_to_bust_out
    risk_level := ra.1
    warning_signals := signals
    recommended_action := ra.2 }

/-! ## Ensemble detector (src/detection/ensemble.py) -/

/-- `EnsembleResult` dataclass (without the `analyzed_at` timestamp). The
four always-populated sub-results are embedded without the vestigial
`Optional` of the dataclass declaration; `analyze` fills them
unconditionally. -/
structure EnsembleResult where
  identity_id : String
  final_risk_score : ℚ
  final_risk_level : String
  synthetic_score : SyntheticScore
  bust_out_prediction : Option BustOutPrediction
  velocity_analysis : VelocityAnalysis
  credit_behavior : CreditBehaviorAnalysis
  au_analysis : AUAbuseAnalysis
  all_signals : List String
  recommended_action : String
  explanation : String

/-- `EnsembleDetector._calculate_final_score`: synthetic 0.40, velocity 0.20,
credit 0.15, AU 0.15, bust-out 0.10; missing bust-out renormalizes by /0.9;
capped at 1. -/
def calculateFinalScore (synthetic : SyntheticScore)
    (bust_out : Option BustOutPrediction) (velocity : VelocityAnalysis)
    (credit : CreditBehaviorAnalysis) (au : AUAbuseAnalysis) : ℚ :=
  let score :=
    synthetic.score * 0.40 + velocity.overall_velocity_score * 0.20 +
    credit.behavior_score * 0.15 + au.abuse_probability * 0.15
  let score :=
    match bust_out with
    | some b => score + b.bust_out_probability * 0.10
    | none => score / 0.9
  min 1 score

/-- The critical-signal override set of
`EnsembleDetector._determine_final_risk_level`. -/
def criticalSignals : List String :=
  ["SSN_DOB_MISMATCH", "DEATH_MASTER_MATCH", "SHARED_SSN", "FRAUD_DEVICE"]

/-- `EnsembleDetector._determine_final_risk_level`. -/
def determineFinalRiskLevel (score : ℚ) (signals : List String) : String :=
  if signals.any (fun s => s ∈ criticalSignals) then "critical"
  else if score ≥ 0.85 then "critical"
  else if score ≥ 0.65 then "high"
  else if score ≥ 0.45 then "medium"
  else if score ≥ 0.25 then "low"
  else "minimal"

/-- `EnsembleDetector._get_recommended_action` (its `signals` parameter is
never read by the source body). -/
def getRecommendedAction (risk_level : String) (signals : List String)
    (bust_out : Option BustOutPrediction) : String :=
  if risk_level = "critical" then
    match bust_out with
    | some b =>
      if b.bust_out_probability > 0.8 then "IMMEDIATE_CREDIT_FREEZE_SAR_FILING"
      else "IMMEDIATE_REVIEW_DECLINE_APPLICATION"
    | none => "IMMEDIATE_REVIEW_DECLINE_APPLICATION"
  else if risk_level = "high" then "MANUAL_REVIEW_REQUIRED"
  else if risk_level = "medium" then "ENHANCED_VERIFICATION"
  else if risk_level = "low" then "STANDARD_PROCESSING_MONITOR"
  else "APPROVE"

/-- `EnsembleDetector._generate_explanation` (numeric rendering via
`formatScore`; day counts via `toString`). -/
def generateEnsembleExplanation (synthetic : SyntheticScore)
    (bust_out : Option BustOutPrediction) (velocity : VelocityAnalysis)
    (credit : CreditBehaviorAnalysis) (au : AUAbuseAnalysis)
    (risk_level : String) : String :=
  let parts := ["Overall risk: " ++ upperRiskLevel risk_level ++ "."]
  let parts :=
    if synthetic.score > 0.5 then
      parts ++ ["High synthetic identity risk (" ++ formatScore synthetic.score
        ++ "). " ++ synthetic.explanation]
    else parts
  let parts :=
    match bust_out with
    | some b =>
      if b.bust_out_probability > 0.5 then
        parts ++ ["Elevated bust-out risk (" ++
          formatScore b.bust_out_probability ++ "). Estimated " ++
          (match b.days_to_bust_out with
           | some d => toString d
           | none => "None") ++ " days to potential bust-out."]
      else parts
    | none => parts
  let parts :=
    if velocity.overall_velocity_score > 0.5 then
      parts ++ ["High PII velocity detected. Anomalies: " ++
        String.intercalate ", " velocity.anomalies ++ "."]
    else parts
  let parts :=
    if au.abuse_probability > 0.5 then
      parts ++ ["Authorized user abuse pattern detected. " ++
        toString au.au_account_count ++ " AU accounts, " ++
        toString au.unrelated_au_count ++ " unrelated."]
    else parts
  String.intercalate " " parts

/-- Python truthiness of the optional `account_id` string (empty string is
falsy in `if account_id and credit_sequence:`). -/
def accountIdTruthy : Option String → Bool
  | some s => s ≠ ""
  | none => false

/-- The state of an `EnsembleDetector` and its injected sub-analyzers:
each collaborator of each sub-analyzer, plus the cached settings. A
default-constructed `EnsembleDetector()` has every collaborator and model
absent and all settings at their defaults. -/
structure EnsembleDetectorState where
  velocityStore : Option VelocityStore := none
  velocitySettings : VelocitySettings := {}
  creditBureau : Option BureauData := none
  auBureau : Option BureauData := none
  auGraphPresent : Bool := false
  scoringSettings : ScoringSettings := {}
  syntheticModel : Option SyntheticModel := none
  bustOutModel : Option BustOutModel := none
  bustOutSettings : BustOutSettings := {}

/-- `EnsembleDetector.analyze`. Deduplication of `all_signals` uses
`List.dedup` (Python's `list(set(...))` — only membership is meaningful,
the set iteration order being unspecified). -/
def ensembleAnalyze (E : EnsembleDetectorState)
    (identity_id ssn_hash : String) (claimed_age_years : ℚ)
    (address_hash phone_hash email : String)
    (device_fingerprint : Option String) (account_id : Option String)
    (credit_sequence : Option CreditSequence)
    (ssn_signals : Option SsnSignals)
    (graph_features : Option GraphFeatureSignals) : EnsembleResult :=
  let velocity_result :=
    velocityAnalyze E.velocityStore E.velocitySettings identity_id ssn_hash
      address_hash phone_hash email device_fingerprint
  let credit_result :=
    creditAnalyze E.creditBureau identity_id ssn_hash claimed_age_years
  let au_result := auAnalyze E.auBureau E.auGraphPresent identity_id ssn_hash
  let velocity_signals : VelocitySignals :=
    { address_velocity_score := velocity_result.address_velocity
      phone_velocity_score := velocity_result.phone_velocity
      email_velocity_score := velocity_result.email_velocity }
  let credit_signals : CreditSignals :=
    { is_thin_file := credit_result.is_thin_file
      file_age_mismatch := "FILE_AGE_MISMATCH" ∈ credit_result.anomalies
      rapid_credit_building := "RAPID_CREDIT_BUILDING" ∈ credit_result.anomalies
      au_abuse_pattern := au_result.abuse_probability > 0.5 }
  let device_signals : DeviceSignals :=
    { weak_binding := device_fingerprint.isNone }
  let synthetic_result :=
    syntheticScore ⟨E.scoringSettings, E.syntheticModel⟩ identity_id
      (ssn_signals.getD {}) (graph_features.getD {}) velocity_signals
      credit_signals device_signals
  let bust_out_result : Option BustOutPrediction :=
    if accountIdTruthy account_id then
      match account_id, credit_sequence with
      | some aid, some seq =>
        some (bustOutPredict E.bustOutModel E.bustOutSettings aid identity_id
          seq (some synthetic_result.score))
      | _, _ => none
    else none
  let all_signals :=
    velocity_result.anomalies ++ credit_result.anomalies ++
    au_result.abuse_indicators ++ synthetic_result.triggered_signals ++
    (match bust_out_result with
     | some b => b.warning_signals
     | none => [])
  let final_score :=
    calculateFinalScore synthetic_result bust_out_result velocity_result
      credit_result au_result
  let final_risk_level := determineFinalRiskLevel final_score all_signals
  { identity_id := identity_id
    final_risk_score := final_score
    final_risk_level := final_risk_level
    synthetic_score := synthetic_result
    bust_out_prediction := bust_out_result
    velocity_analysis := velocity_result
    credit_behavior := credit_result
    au_analysis := au_result
    all_signals := all_signals.dedup
    recommended_action :=
      getRecommendedAction final_risk_level all_signals bust_out_result
    explanation :=
      generateEnsembleExplanation synthetic_result bust_out_result
        velocity_result credit_result au_result final_risk_level }

/-! ## Cluster detector (src/graph/cluster_detector.py) -/

/-- Link types of the identity sharing network built by
`_build_identity_network` (email links appear in the weight table but the
builder issues no email query). -/
inductive LinkType
  | ssn
  | address
  | phone
  | device
  | email
deriving DecidableEq

/-- `ClusterDetector._get_link_weight`. -/
def getLinkWeight : LinkType → ℚ
  | .ssn => 1.0
  | .phone => 0.6
  | .address => 0.4
  | .device => 0.7
  | .email => 0.5

/-- The undirected identity network as an edge list: each entry is an
unordered identity pair with its accumulated `shared_types` set. -/
def ClusterGraph : Type := List (String × String × List LinkType)

/-- Edge lookup (`G.has_edge` / `G[a][b]["shared_types"]`). -/
def edgeTypes (G : ClusterGraph) (a b : String) : Option (List LinkType) :=
  (G.find? (fun e =>
    (e.1 = a ∧ e.2.1 = b) ∨ (e.1 = b ∧ e.2.1 = a))).map (·.2.2)

/-- All index-ordered pairs `(members[i], members[j])`, i < j — the double
loop of `_analyze_cluster`. -/
def orderedPairs : List String → List (String × String)
  | [] => []
  | x :: xs => xs.map (fun y => (x, y)) ++ orderedPairs xs

/-- The `shared_elements` tally dict, seeded with the four explicit keys;
email ends up counted through `.get(link_type, 0)` as well. -/
structure SharedElementCounts where
  ssn : ℕ := 0
  address : ℕ := 0
  phone : ℕ := 0
  device : ℕ := 0
  email : ℕ := 0

/-- Increment of one link-type tally. -/
def bumpShared (c : SharedElementCounts) : LinkType → SharedElementCounts
  | .ssn => { c with ssn := c.ssn + 1 }
  | .address => { c with address := c.address + 1 }
  | .phone => { c with phone := c.phone + 1 }
  | .device => { c with device := c.device + 1 }
  | .email => { c with email := c.email + 1 }

/-- The member-pair tally loop of `_analyze_cluster`. -/
def tallySharedElements (G : ClusterGraph) (members : List String) :
    SharedElementCounts :=
  (orderedPairs members).foldl
    (fun acc p =>
      match edgeTypes G p.1 p.2 with
      | some types => types.foldl bumpShared acc
      | none => acc)
    {}

/-- Degree of a member within the induced subgraph
(`subgraph.degree(x)`). -/
def subgraphDegree (G : ClusterGraph) (members : List String) (v : String) :
    ℕ :=
  (members.filter (fun u => u ≠ v ∧ (edgeTypes G u v).isSome)).length

/-- `max(members, key=subgraph.degree)`: first member attaining the maximal
in-cluster degree. -/
def clusterCenter (G : ClusterGraph) (members : List String) : String :=
  members.foldl
    (fun best m =>
      if subgraphDegree G members best < subgraphDegree G members m then m
      else best)
    (members.headD "")

/-- Edge count of the induced subgraph. -/
def subgraphEdgeCount (G : ClusterGraph) (members : List String) : ℕ :=
  ((orderedPairs members).filter
    (fun p => (edgeTypes G p.1 p.2).isSome)).length

/-- `nx.density` of the induced subgraph: 2m / (n(n−1)), 0 for n ≤ 1. -/
def subgraphDensity (G : ClusterGraph) (members : List String) : ℚ :=
  let n := members.length
  if n ≤ 1 then 0
  else (2 * subgraphEdgeCount G members : ℚ) / ((n : ℚ) * ((n : ℚ) - 1))

/-- `ClusterDetector._calculate_cluster_score`; the density of the induced
subgraph is received pre-computed. -/
def calculateClusterScore (member_count : ℕ)
    (shared_elements : SharedElementCounts) (density : ℚ) : ℚ :=
  let score : ℚ := 0
  let score := if 0 < shared_elements.ssn then score + 0.5 else score
  let score :=
    if member_count < shared_elements.phone then score + 0.2 else score
  let score := if 0 < shared_elements.device then score + 0.15 else score
  let score := score + density * 0.15
  let score :=
    if 10 ≤ member_count then score + 0.1
    else if 5 ≤ member_count then score + 0.05
    else score
  min 1 score

/-- `SyntheticCluster` dataclass. -/
structure SyntheticCluster where
  cluster_id : String
  member_count : ℕ
  member_identities : List String
  shared_elements : SharedElementCounts
  cluster_score : ℚ
  center_identity : String
  risk_level : String

/-- `ClusterDetector._analyze_cluster`. -/
def analyzeCluster (G : ClusterGraph) (members : List String)
    (cluster_id : String) : SyntheticCluster :=
  let shared_elements := tallySharedElements G members
  let center := clusterCenter G members
  let cluster_score :=
    calculateClusterScore members.length shared_elements
      (subgraphDensity G members)
  let risk_level :=
    if cluster_score ≥ 0.8 then "critical"
    else if cluster_score ≥ 0.6 then "high"
    else if cluster_score ≥ 0.4 then "medium"
    else "low"
  { cluster_id := cluster_id
    member_count := members.length
    member_identities := members
    shared_elements := shared_elements
    cluster_score := cluster_score
    center_identity := center
    risk_level := risk_level }

/-! ## Graph feature extractor (src/graph/graph_features.py) -/

/-- Relationship types of the PII-sharing feature graph. -/
inductive RelType
  | HAS_SSN
  | HAS_ADDRESS
  | HAS_PHONE
  | HAS_EMAIL
  | USES_DEVICE
deriving DecidableEq

/-- The cached networkx graph built by `build_graph`: node list, undirected
typed edge list, and per-node attributes (`synthetic_score`, `cluster_id`). -/
structure FeatureGraph where
  nodes : List String
  edges : List (String × String × List RelType)
  synthetic_score : String → ℚ
  cluster_id : String → Option String

/-- Pre-computed global metrics (`self._cached_metrics`): PageRank and
(approximate) betweenness centrality are iterative floating-point
computations consumed opaquely, so they enter the embedding as data. -/
structure GraphMetrics where
  pagerank : String → ℚ
  betweenness : String → ℚ

/-- Neighbors of a node (`G.neighbors`), read off the edge list. -/
def graphNeighbors (G : FeatureGraph) (v : String) : List String :=
  G.edges.filterMap (fun e =>
    if e.1 = v then some e.2.1
    else if e.2.1 = v then some e.1
    else none)

/-- The `rel_types` attribute of the edge between two nodes. -/
def relTypesBetween (G : FeatureGraph) (a b : String) : List RelType :=
  ((G.edges.find? (fun e =>
    (e.1 = a ∧ e.2.1 = b) ∨ (e.1 = b ∧ e.2.1 = a))).map (·.2.2)).getD []

/-- Whether two nodes are adjacent. -/
def hasEdge (G : FeatureGraph) (a b : String) : Bool :=
  (G.edges.any (fun e =>
    (e.1 = a ∧ e.2.1 = b) ∨ (e.1 = b ∧ e.2.1 = a)))

/-- Index-ordered pairs of a node list (triangle / subgraph-edge counting). -/
def nodePairs : List String → List (String × String)
  | [] => []
  | x :: xs => xs.map (fun y => (x, y)) ++ nodePairs xs

/-- `nx.clustering(G, v)`: 2T / (k(k−1)) with T the triangles through v;
0 for degree below 2. -/
def clusteringCoefficient (G : FeatureGraph) (v : String) : ℚ :=
  let ns := graphNeighbors G v
  let k := ns.length
  if k ≤ 1 then 0
  else
    let triangles := ((nodePairs ns).filter (fun p => hasEdge G p.1 p.2)).length
    (2 * triangles : ℚ) / ((k : ℚ) * ((k : ℚ) - 1))

/-- One breadth step of connected-component discovery. -/
def expandComponent (G : FeatureGraph) (s : List String) : List String :=
  (s ++ s.flatMap (graphNeighbors G)).dedup

/-- `nx.node_connected_component(G, v)`: closure of `{v}` under adjacency
(iterating once per node of the graph reaches a fixpoint). -/
def componentOf (G : FeatureGraph) (v : String) : List String :=
  Nat.iterate (expandComponent G) G.nodes.length [v]

/-- `_get_cluster_metrics`: size and `nx.density` of the connected component
containing the identity. -/
def getClusterMetrics (G : FeatureGraph) (v : String) : ℕ × ℚ :=
  let comp := componentOf G v
  let n := comp.length
  let m := ((nodePairs comp).filter (fun p => hasEdge G p.1 p.2)).length
  (n, if n ≤ 1 then 0 else (2 * m : ℚ) / ((n : ℚ) * ((n : ℚ) - 1)))

/-- Per-type shared-element counts (`_count_shared_elements`). -/
structure SharedRelCounts where
  ssn : ℕ := 0
  address : ℕ := 0
  phone : ℕ := 0
  device : ℕ := 0
  email : ℕ := 0

/-- Increment of one relationship-type count (the `type_mapping` table). -/
def bumpRelCount (c : SharedRelCounts) : RelType → SharedRelCounts
  | .HAS_SSN => { c with ssn := c.ssn + 1 }
  | .HAS_ADDRESS => { c with address := c.address + 1 }
  | .HAS_PHONE => { c with phone := c.phone + 1 }
  | .HAS_EMAIL => { c with email := c.email + 1 }
  | .USES_DEVICE => { c with device := c.device + 1 }

/-- `GraphFeatureExtractor._count_shared_elements`. -/
def countSharedElements (G : FeatureGraph) (v : String) : SharedRelCounts :=
  (graphNeighbors G v).foldl
    (fun acc n => (relTypesBetween G v n).foldl bumpRelCount acc) {}

/-- `GraphFeatures` dataclass; `feature_vector` is the 15-entry list built
at the end of `extract_features`. -/
structure GraphFeatures where
  identity_id : String
  degree : ℕ
  weighted_degree : ℕ
  clustering_coefficient : ℚ
  betweenness_centrality : ℚ
  pagerank : ℚ
  shared_ssn_count : ℕ
  shared_address_count : ℕ
  shared_phone_count : ℕ
  shared_email_count : ℕ
  shared_device_count : ℕ
  cluster_id : Option String
  cluster_size : ℕ
  cluster_density : ℚ
  neighbor_avg_synthetic_score : ℚ
  neighbor_max_synthetic_score : ℚ
  high_risk_neighbor_count : ℕ
  feature_vector : List ℚ

/-- `GraphFeatureExtractor._empty_features`: the defined baseline for an
identity absent from the graph. -/
def emptyFeatures (identity_id : String) : GraphFeatures :=
  { identity_id := identity_id
    degree := 0
    weighted_degree := 0
    clustering_coefficient := 0
    betweenness_centrality := 0
    pagerank := 0
    shared_ssn_count := 0
    shared_address_count := 0
    shared_phone_count := 0
    shared_email_count := 0
    shared_device_count := 0
    cluster_id := none
    cluster_size := 1
    cluster_density := 0
    neighbor_avg_synthetic_score := 0
    neighbor_max_synthetic_score := 0
    high_risk_neighbor_count := 0
    feature_vector := List.replicate 15 0 }

/-- `GraphFeatureExtractor.extract_features` over the cached graph `G` and
cached global metrics `m`. -/
def extractFeatures (G : FeatureGraph) (m : GraphMetrics)
    (identity_id : String) : GraphFeatures :=
  if identity_id ∈ G.nodes then
    let ns := graphNeighbors G identity_id
    let degree := ns.length
    let weighted_degree :=
      (ns.map (fun n => (relTypesBetween G identity_id n).length)).sum
    let clustering := clusteringCoefficient G identity_id
    let betweenness := m.betweenness identity_id
    let pagerank := m.pagerank identity_id
    let shared_counts := countSharedElements G identity_id
    let cm := getClusterMetrics G identity_id
    let neighbor_scores := ns.map G.synthetic_score
    let avg_neighbor_score :=
      if neighbor_scores ≠ [] then listMean neighbor_scores else 0
    let max_neighbor_score :=
      if neighbor_scores ≠ [] then listMax neighbor_scores else 0
    let high_risk_count := (neighbor_scores.filter (· > 0.5)).length
    { identity_id := identity_id
      degree := degree
      weighted_degree := weighted_degree
      clustering_coefficient := clustering
      betweenness_centrality := betweenness
      pagerank := pagerank
      shared_ssn_count := shared_counts.ssn
      shared_address_count := shared_counts.address
      shared_phone_count := shared_counts.phone
      shared_email_count := shared_counts.email
      shared_device_count := shared_counts.device
      cluster_id := G.cluster_id identity_id
      cluster_size := cm.1
      cluster_density := cm.2
      neighbor_avg_synthetic_score := avg_neighbor_score
      neighbor_max_synthetic_score := max_neighbor_score
      high_risk_neighbor_count := high_risk_count
      feature_vector :=
        [(degree : ℚ), (weighted_degree : ℚ), clustering, betweenness,
         pagerank, (shared_counts.ssn : ℚ), (shared_counts.address : ℚ),
         (shared_counts.phone : ℚ), (shared_counts.email : ℚ),
         (shared_counts.device : ℚ), (cm.1 : ℚ), cm.2, avg_neighbor_score,
         max_neighbor_score, (high_risk_count : ℚ)] }
  else emptyFeatures identity_id

/-! ## Scenario inputs used by concrete claims -/

/-- The members of a six-identity SSN-sharing ring. -/
def ssnRingMembers : List String := ["i1", "i2", "i3", "i4", "i5", "i6"]

/-- The sharing network of six identities all holding one SSN node: every
pair is linked by an ssn edge. -/
def ssnRingGraph : ClusterGraph :=
  (orderedPairs ssnRingMembers).map (fun p => (p.1, p.2, [LinkType.ssn]))

/-- A 12-month sequence with exactly the balances and payments demanded by
the bust-out scenario (balances 1000 → 6500, payments 500 → 170, both
monotone) and nothing else: no utilization, cash-advance or limit data. -/
def bareBustOutSequence : CreditSequence :=
  { account_id := "ACCT-000001"
    monthly_balances :=
      [1000, 1500, 2000, 2500, 3000, 3500, 4000, 4500, 5000, 5500, 6000, 6500]
    monthly_payments :=
      [500, 470, 440, 410, 380, 350, 320, 290, 260, 230, 200, 170]
    credit_limit_changes := []
    utilization_rates := []
    cash_advance_amounts := []
    months_on_books := 12 }

/-- The repository's canonical bust-out pattern
(scripts/generate_synthetic_data.py, noise terms zeroed): the same balances
and payments plus the rising utilization ramp 0.3 + 0.06/month and four
recent cash advances. -/
def canonicalBustOutSequence : CreditSequence :=
  { bareBustOutSequence with
    utilization_rates :=
      [0.3, 0.36, 0.42, 0.48, 0.54, 0.6, 0.66, 0.72, 0.78, 0.84, 0.9, 0.96]
    cash_advance_amounts := [0, 0, 0, 0, 0, 0, 0, 0, 1000, 1000, 1000, 1000] }

/-- The cluster-score formula exactly as §4.3 of the spec words it: +0.5 for
any SSN sharing, +0.2 when phone-sharing edges exceed the member count,
+0.15 for any device sharing, density × 0.15, size bonus 0.1 (≥10) or 0.05
(≥5), capped at 1. -/
def specClusterScore (member_count : ℕ)
    (shared_elements : SharedElementCounts) (density : ℚ) : ℚ :=
  min 1 ((if 0 < shared_elements.ssn then 0.5 else 0) +
    (if member_count < shared_elements.phone then 0.2 else 0) +
    (if 0 < shared_elements.device then 0.15 else 0) +
    density * 0.15 +
    (if 10 ≤ member_count then 0.1
     else if 5 ≤ member_count then 0.05 else 0))

/-- The pre-deduplication signal accumulation list of
`EnsembleDetector.analyze`. -/
def ensembleRawSignals (E : EnsembleDetectorState)
    (iid ssn : String) (age : ℚ) (ah ph em : String) (fp : Option String)
    (aid : Option String) (seq : Option CreditSequence)
    (ss : Option SsnSignals) (gf : Option GraphFeatureSignals) : List String :=
  (velocityAnalyze E.velocityStore E.velocitySettings iid ssn ah ph em
    fp).anomalies ++
  (creditAnalyze E.creditBureau iid ssn age).anomalies ++
  (auAnalyze E.auBureau E.auGraphPresent iid ssn).abuse_indicators ++
  (ensembleAnalyze E iid ssn age ah ph em fp aid seq ss
    gf).synthetic_score.triggered_signals ++
  (match (ensembleAnalyze E iid ssn age ah ph em fp aid seq ss
      gf).bust_out_prediction with
   | some b => b.warning_signals
   | none => [])


/-! ## Helper lemmas: range bounds -/

/-- A nonnegative quantity capped by `min 1` lies in the unit interval. -/
lemma min_one_mem_unit {x : ℚ} (hx : 0 ≤ x) :
    0 ≤ min 1 x ∧ min 1 x ≤ 1 :=
  ⟨le_min (by norm_num) hx, min_le_left _ _⟩

/-- Conditionally adding a nonnegative weight keeps a score nonnegative. -/
lemma ite_add_nonneg {c : Prop} [Decidable c] {s w : ℚ} (hs : 0 ≤ s)
    (hw : 0 ≤ w) : 0 ≤ if c then s + w else s := by
  split_ifs
  · linarith
  · exact hs

/-- Variant of `ite_add_nonneg` whose weight bound may use the branch
condition. -/
lemma ite_add_nonneg_of {c : Prop} [Decidable c] {s w : ℚ} (hs : 0 ≤ s)
    (hw : c → 0 ≤ w) : 0 ≤ if c then s + w else s := by
  split_ifs with h
  · have := hw h
    linarith
  · exact hs

lemma scoreSsnSignals_mem (s : SsnSignals) :
    0 ≤ scoreSsnSignals s ∧ scoreSsnSignals s ≤ 1 := by
  unfold scoreSsnSignals
  refine min_one_mem_unit ?_
  repeat refine ite_add_nonneg ?_ (by norm_num)
  norm_num

lemma scoreGraphFeatures_mem (f : GraphFeatureSignals) :
    0 ≤ scoreGraphFeatures f ∧ scoreGraphFeatures f ≤ 1 := by
  unfold scoreGraphFeatures
  refine min_one_mem_unit ?_
  refine ite_add_nonneg (ite_add_nonneg_of (ite_add_nonneg
    (ite_add_nonneg le_rfl ?_) (by norm_num)) ?_) (by norm_num)
  · exact le_min (by norm_num) (by positivity)
  · intro h
    refine le_min (by norm_num) ?_
    have h5 : (5 : ℚ) < (f.cluster_size : ℚ) := by exact_mod_cast h
    nlinarith

lemma scoreVelocity_mem (s : VelocitySignals) (ha : 0 ≤ s.address_velocity_score)
    (hp : 0 ≤ s.phone_velocity_score) (he : 0 ≤ s.email_velocity_score) :
    0 ≤ scoreVelocity s ∧ scoreVelocity s ≤ 1 := by
  unfold scoreVelocity
  exact min_one_mem_unit (by nlinarith)

lemma scoreCreditBehavior_mem (s : CreditSignals) :
    0 ≤ scoreCreditBehavior s ∧ scoreCreditBehavior s ≤ 1 := by
  unfold scoreCreditBehavior
  refine min_one_mem_unit ?_
  repeat refine ite_add_nonneg ?_ (by norm_num)
  norm_num

lemma scoreDevice_mem (s : DeviceSignals) :
    0 ≤ scoreDevice s ∧ scoreDevice s ≤ 1 := by
  unfold scoreDevice
  refine min_one_mem_unit ?_
  repeat refine ite_add_nonneg ?_ (by norm_num)
  norm_num

/-- The initial ratio-based score of `_calculate_element_score` is
nonnegative. -/
lemma elementBaseScore_nonneg {r : ℚ} (hr : 0 ≤ r) :
    0 ≤ if r ≤ 1 then r * 0.3 else 0.3 + min (r - 1) 3 * 0.233 := by
  split_ifs with hc
  · positivity
  · have hm : (0 : ℚ) ≤ min (r - 1) 3 :=
      le_min (by linarith [not_le.mp hc]) (by norm_num)
    nlinarith

lemma calculateElementScore_mem (s : VelocitySettings) (etype : ElementType)
    (v : ElementVelocity) :
    0 ≤ calculateElementScore s etype v ∧ calculateElementScore s etype v ≤ 1 := by
  unfold calculateElementScore
  by_cases h1 : v.unique_identities_180d ≤ 1
  · simp only [h1, if_true]
    exact ⟨le_rfl, by norm_num⟩
  · simp only [h1, if_false]
    refine min_one_mem_unit ?_
    have hr : (0 : ℚ) ≤
        (v.unique_identities_180d : ℚ) / (velocityThreshold s etype : ℚ) := by
      positivity
    have hb1 := elementBaseScore_nonneg hr
    have hb2 : (0 : ℚ) ≤
        (if 1 < v.unique_ssns_180d then
          (if (v.unique_identities_180d : ℚ) /
              (velocityThreshold s etype : ℚ) ≤ 1 then
            (v.unique_identities_180d : ℚ) /
              (velocityThreshold s etype : ℚ) * 0.3
          else 0.3 + min ((v.unique_identities_180d : ℚ) /
              (velocityThreshold s etype : ℚ) - 1) 3 * 0.233) +
            min 0.2 (((v.unique_ssns_180d : ℚ) - 1) * 0.05)
        else
          (if (v.unique_identities_180d : ℚ) /
              (velocityThreshold s etype : ℚ) ≤ 1 then
            (v.unique_identities_180d : ℚ) /
              (velocityThreshold s etype : ℚ) * 0.3
          else 0.3 + min ((v.unique_identities_180d : ℚ) /
              (velocityThreshold s etype : ℚ) - 1) 3 * 0.233)) := by
      refine ite_add_nonneg_of hb1 ?_
      intro h
      refine le_min (by norm_num) ?_
      have hcast : (1 : ℚ) < (v.unique_ssns_180d : ℚ) := by exact_mod_cast h
      nlinarith
    split_ifs at hb2 ⊢ <;> nlinarith

lemma calculateOverallScore_mem {a p e d : ℚ} (ha : 0 ≤ a) (hp : 0 ≤ p)
    (he : 0 ≤ e) (hd : 0 ≤ d) :
    0 ≤ calculateOverallScore a p e d ∧ calculateOverallScore a p e d ≤ 1 := by
  unfold calculateOverallScore
  exact min_one_mem_unit (by nlinarith)

lemma getElementVelocityScore_mem (store : Option VelocityStore)
    (s : VelocitySettings) (etype : ElementType) (h : String) :
    0 ≤ getElementVelocityScore store s etype h ∧
      getElementVelocityScore store s etype h ≤ 1 := by
  unfold getElementVelocityScore
  match store with
  | none => exact ⟨le_rfl, by norm_num⟩
  | some f => exact calculateElementScore_mem s etype (f etype h)

lemma velocityAnalyze_overall_mem (store : Option VelocityStore)
    (s : VelocitySettings) (iid ssn ah ph eh : String)
    (fp : Option String) :
    0 ≤ (velocityAnalyze store s iid ssn ah ph eh fp).overall_velocity_score ∧
      (velocityAnalyze store s iid ssn ah ph eh fp).overall_velocity_score ≤ 1 := by
  unfold velocityAnalyze
  refine calculateOverallScore_mem (getElementVelocityScore_mem store s .address ah).1
    (getElementVelocityScore_mem store s .phone ph).1
    (getElementVelocityScore_mem store s .email eh).1 ?_
  match fp with
  | some f => exact (getElementVelocityScore_mem store s .device f).1
  | none => exact le_rfl

lemma calculateBehaviorScore_mem (thin : Bool) (au_ratio cv : ℚ)
    (anomalies : List String) (age : ℚ) (hau : 0 ≤ au_ratio) (hcv : 0 ≤ cv) :
    0 ≤ calculateBehaviorScore thin au_ratio cv anomalies age ∧
      calculateBehaviorScore thin au_ratio cv anomalies age ≤ 1 := by
  unfold calculateBehaviorScore
  refine min_one_mem_unit ?_
  refine ite_add_nonneg ?_ (by norm_num)
  have hbase : (0 : ℚ) ≤
      (if thin = true ∧ age > 35 then
        (if thin = true then (0 : ℚ) + 0.2 else 0) + 0.3
      else if thin = true then (0 : ℚ) + 0.2 else 0) := by
    refine ite_add_nonneg ?_ (by norm_num)
    refine ite_add_nonneg ?_ (by norm_num)
    norm_num
  have hmul : (0 : ℚ) ≤ au_ratio * 0.4 := by positivity
  split_ifs <;> nlinarith

lemma creditAnalyze_score_mem (bureau : Option BureauData)
    (iid ssn : String) (age : ℚ) :
    0 ≤ (creditAnalyze bureau iid ssn age).behavior_score ∧
      (creditAnalyze bureau iid ssn age).behavior_score ≤ 1 := by
  unfold creditAnalyze
  refine calculateBehaviorScore_mem _ _ _ _ _ ?_ le_rfl
  split_ifs
  · positivity
  · exact le_rfl

lemma calculateAbuseProbability_mem (au_count unrelated : ℕ)
    (indicators : List String) :
    0 ≤ calculateAbuseProbability au_count unrelated indicators ∧
      calculateAbuseProbability au_count unrelated indicators ≤ 1 := by
  unfold calculateAbuseProbability
  refine min_one_mem_unit ?_
  have hbase : (0 : ℚ) ≤
      (if 6 ≤ au_count then (0.4 : ℚ)
       else if 4 ≤ au_count then 0.25
       else if 3 ≤ au_count then 0.1 else 0) := by
    split_ifs <;> norm_num
  have hstep : (0 : ℚ) ≤
      (if 0 < au_count then
        (if 6 ≤ au_count then (0.4 : ℚ)
         else if 4 ≤ au_count then 0.25
         else if 3 ≤ au_count then 0.1 else 0) +
          (unrelated : ℚ) / (au_count : ℚ) * 0.3
       else
        (if 6 ≤ au_count then (0.4 : ℚ)
         else if 4 ≤ au_count then 0.25
         else if 3 ≤ au_count then 0.1 else 0)) := by
    refine ite_add_nonneg hbase (by positivity)
  have hweight : ∀ i : String, 0 ≤ auIndicatorWeight i := by
    intro i
    unfold auIndicatorWeight
    split_ifs <;> norm_num
  have hfold : ∀ (l : List String) (init : ℚ), 0 ≤ init →
      0 ≤ l.foldl (fun acc i => acc + auIndicatorWeight i) init := by
    intro l
    induction l with
    | nil => intro init h; simpa using h
    | cons x xs ih =>
      intro init h
      simpa using ih (init + auIndicatorWeight x)
        (by have := hweight x; linarith)
  exact hfold _ _ hstep

lemma auAnalyze_prob_mem (bureau : Option BureauData) (gp : Bool)
    (iid ssn : String) :
    0 ≤ (auAnalyze bureau gp iid ssn).abuse_probability ∧
      (auAnalyze bureau gp iid ssn).abuse_probability ≤ 1 := by
  unfold auAnalyze
  exact calculateAbuseProbability_mem _ _ _

lemma ruleBasedBustOutProbability_mem (f : BustOutFeatures) :
    0 ≤ calculateBustOutProbability none f ∧
      calculateBustOutProbability none f ≤ 1 := by
  unfold calculateBustOutProbability
  refine min_one_mem_unit ?_
  repeat refine ite_add_nonneg ?_ (by norm_num)
  norm_num

lemma bustOutPredict_prob_mem (s : BustOutSettings) (aid iid : String)
    (seq : CreditSequence) (syn : Option ℚ) :
    0 ≤ (bustOutPredict none s aid iid seq syn).bust_out_probability ∧
      (bustOutPredict none s aid iid seq syn).bust_out_probability ≤ 1 := by
  unfold bustOutPredict
  exact ruleBasedBustOutProbability_mem _

/-- With the default component weights (summing to 1), the synthetic final
score lies in [0,1] whenever the velocity-signal payload is nonnegative (as
it always is when produced by the velocity analyzer). -/
lemma syntheticScore_default_mem (m : Option SyntheticModel) (iid : String)
    (ssn : SsnSignals) (g : GraphFeatureSignals) (vel : VelocitySignals)
    (credit : CreditSignals) (device : DeviceSignals)
    (ha : 0 ≤ vel.address_velocity_score) (hp : 0 ≤ vel.phone_velocity_score)
    (he : 0 ≤ vel.email_velocity_score) :
    0 ≤ (syntheticScore (mkSyntheticScorer m) iid ssn g vel credit device).score ∧
      (syntheticScore (mkSyntheticScorer m) iid ssn g vel credit device).score ≤ 1 := by
  have h1 := scoreSsnSignals_mem ssn
  have h2 := scoreGraphFeatures_mem g
  have h3 := scoreVelocity_mem vel ha hp he
  have h4 := scoreCreditBehavior_mem credit
  have h5 := scoreDevice_mem device
  unfold syntheticScore mkSyntheticScorer defaultScoringSettings
  constructor
  · show (0 : ℚ) ≤ _ * (0.25 : ℚ) + _ * (0.30 : ℚ) + _ * (0.20 : ℚ) +
      _ * (0.15 : ℚ) + _ * (0.10 : ℚ)
    nlinarith [h1.1, h2.1, h3.1, h4.1, h5.1]
  · show _ * (0.25 : ℚ) + _ * (0.30 : ℚ) + _ * (0.20 : ℚ) +
      _ * (0.15 : ℚ) + _ * (0.10 : ℚ) ≤ 1
    nlinarith [h1.1, h1.2, h2.1, h2.2, h3.1, h3.2, h4.1, h4.2, h5.1, h5.2]

/-- The ensemble's weighted combination stays in [0,1] given in-range
inputs. -/
lemma calculateFinalScore_mem (synthetic : SyntheticScore)
    (bust_out : Option BustOutPrediction) (velocity : VelocityAnalysis)
    (credit : CreditBehaviorAnalysis) (au : AUAbuseAnalysis)
    (hs : 0 ≤ synthetic.score) (hv : 0 ≤ velocity.overall_velocity_score)
    (hc : 0 ≤ credit.behavior_score) (ha : 0 ≤ au.abuse_probability)
    (hb : ∀ b ∈ bust_out, 0 ≤ b.bust_out_probability) :
    0 ≤ calculateFinalScore synthetic bust_out velocity credit au ∧
      calculateFinalScore synthetic bust_out velocity credit au ≤ 1 := by
  unfold calculateFinalScore
  match bust_out with
  | some b =>
    have hbp := hb b rfl
    exact min_one_mem_unit (by nlinarith)
  | none =>
    refine min_one_mem_unit ?_
    have : (0 : ℚ) ≤ synthetic.score * 0.40 +
        velocity.overall_velocity_score * 0.20 + credit.behavior_score * 0.15 +
        au.abuse_probability * 0.15 := by nlinarith
    positivity

/-! ## Projection lemmas for `ensembleAnalyze` (all definitional) -/

lemma velocityAnalyze_address_mem (store : Option VelocityStore)
    (s : VelocitySettings) (iid ssn ah ph eh : String) (fp : Option String) :
    0 ≤ (velocityAnalyze store s iid ssn ah ph eh fp).address_velocity ∧
      (velocityAnalyze store s iid ssn ah ph eh fp).address_velocity ≤ 1 :=
  getElementVelocityScore_mem store s .address ah

lemma velocityAnalyze_phone_mem (store : Option VelocityStore)
    (s : VelocitySettings) (iid ssn ah ph eh : String) (fp : Option String) :
    0 ≤ (velocityAnalyze store s iid ssn ah ph eh fp).phone_velocity ∧
      (velocityAnalyze store s iid ssn ah ph eh fp).phone_velocity ≤ 1 :=
  getElementVelocityScore_mem store s .phone ph

lemma velocityAnalyze_email_mem (store : Option VelocityStore)
    (s : VelocitySettings) (iid ssn ah ph eh : String) (fp : Option String) :
    0 ≤ (velocityAnalyze store s iid ssn ah ph eh fp).email_velocity ∧
      (velocityAnalyze store s iid ssn ah ph eh fp).email_velocity ≤ 1 :=
  getElementVelocityScore_mem store s .email eh

lemma ensembleAnalyze_final_score_eq (E : EnsembleDetectorState)
    (iid ssn : String) (age : ℚ) (ah ph em : String) (fp : Option String)
    (aid : Option String) (seq : Option CreditSequence)
    (ss : Option SsnSignals) (gf : Option GraphFeatureSignals) :
    (ensembleAnalyze E iid ssn age ah ph em fp aid seq ss gf).final_risk_score =
      calculateFinalScore
        (ensembleAnalyze E iid ssn age ah ph em fp aid seq ss gf).synthetic_score
        (ensembleAnalyze E iid ssn age ah ph em fp aid seq ss gf).bust_out_prediction
        (ensembleAnalyze E iid ssn age ah ph em fp aid seq ss gf).velocity_analysis
        (ensembleAnalyze E iid ssn age ah ph em fp aid seq ss gf).credit_behavior
        (ensembleAnalyze E iid ssn age ah ph em fp aid seq ss gf).au_analysis :=
  rfl

lemma ensembleAnalyze_velocity_eq (E : EnsembleDetectorState)
    (iid ssn : String) (age : ℚ) (ah ph em : String) (fp : Option String)
    (aid : Option String) (seq : Option CreditSequence)
    (ss : Option SsnSignals) (gf : Option GraphFeatureSignals) :
    (ensembleAnalyze E iid ssn age ah ph em fp aid seq ss gf).velocity_analysis =
      velocityAnalyze E.velocityStore E.velocitySettings iid ssn ah ph em fp :=
  rfl

lemma ensembleAnalyze_credit_eq (E : EnsembleDetectorState)
    (iid ssn : String) (age : ℚ) (ah ph em : String) (fp : Option String)
    (aid : Option String) (seq : Option CreditSequence)
    (ss : Option SsnSignals) (gf : Option GraphFeatureSignals) :
    (ensembleAnalyze E iid ssn age ah ph em fp aid seq ss gf).credit_behavior =
      creditAnalyze E.creditBureau iid ssn age :=
  rfl

lemma ensembleAnalyze_au_eq (E : EnsembleDetectorState)
    (iid ssn : String) (age : ℚ) (ah ph em : String) (fp : Option String)
    (aid : Option String) (seq : Option CreditSequence)
    (ss : Option SsnSignals) (gf : Option GraphFeatureSignals) :
    (ensembleAnalyze E iid ssn age ah ph em fp aid seq ss gf).au_analysis =
      auAnalyze E.auBureau E.auGraphPresent iid ssn :=
  rfl

lemma ensembleAnalyze_synthetic_eq (E : EnsembleDetectorState)
    (iid ssn : String) (age : ℚ) (ah ph em : String) (fp : Option String)
    (aid : Option String) (seq : Option CreditSequence)
    (ss : Option SsnSignals) (gf : Option GraphFeatureSignals) :
    (ensembleAnalyze E iid ssn age ah ph em fp aid seq ss gf).synthetic_score =
      syntheticScore ⟨E.scoringSettings, E.syntheticModel⟩ iid (ss.getD {})
        (gf.getD {})
        { address_velocity_score :=
            (velocityAnalyze E.velocityStore E.velocitySettings iid ssn ah ph
              em fp).address_velocity
          phone_velocity_score :=
            (velocityAnalyze E.velocityStore E.velocitySettings iid ssn ah ph
              em fp).phone_velocity
          email_velocity_score :=
            (velocityAnalyze E.velocityStore E.velocitySettings iid ssn ah ph
              em fp).email_velocity }
        { is_thin_file := (creditAnalyze E.creditBureau iid ssn age).is_thin_file
          file_age_mismatch :=
            "FILE_AGE_MISMATCH" ∈ (creditAnalyze E.creditBureau iid ssn age).anomalies
          rapid_credit_building :=
            "RAPID_CREDIT_BUILDING" ∈
              (creditAnalyze E.creditBureau iid ssn age).anomalies
          au_abuse_pattern :=
            (auAnalyze E.auBureau E.auGraphPresent iid ssn).abuse_probability > 0.5 }
        { weak_binding := fp.isNone } :=
  rfl

lemma ensembleAnalyze_bustout_eq (E : EnsembleDetectorState)
    (iid ssn : String) (age : ℚ) (ah ph em : String) (fp : Option String)
    (aid : Option String) (seq : Option CreditSequence)
    (ss : Option SsnSignals) (gf : Option GraphFeatureSignals) :
    (ensembleAnalyze E iid ssn age ah ph em fp aid seq ss gf).bust_out_prediction =
      (if accountIdTruthy aid then
        match aid, seq with
        | some a, some sq =>
          some (bustOutPredict E.bustOutModel E.bustOutSettings a iid sq
            (some (ensembleAnalyze E iid ssn age ah ph em fp aid seq ss
              gf).synthetic_score.score))
        | _, _ => none
      else none) :=
  rfl

lemma ensembleAnalyze_all_signals_eq (E : EnsembleDetectorState)
    (iid ssn : String) (age : ℚ) (ah ph em : String) (fp : Option String)
    (aid : Option String) (seq : Option CreditSequence)
    (ss : Option SsnSignals) (gf : Option GraphFeatureSignals) :
    (ensembleAnalyze E iid ssn age ah ph em fp aid seq ss gf).all_signals =
      (ensembleRawSignals E iid ssn age ah ph em fp aid seq ss gf).dedup :=
  rfl

lemma ensembleAnalyze_level_eq (E : EnsembleDetectorState)
    (iid ssn : String) (age : ℚ) (ah ph em : String) (fp : Option String)
    (aid : Option String) (seq : Option CreditSequence)
    (ss : Option SsnSignals) (gf : Option GraphFeatureSignals) :
    (ensembleAnalyze E iid ssn age ah ph em fp aid seq ss gf).final_risk_level =
      determineFinalRiskLevel
        (ensembleAnalyze E iid ssn age ah ph em fp aid seq ss gf).final_risk_score
        (ensembleRawSignals E iid ssn age ah ph em fp aid seq ss gf) :=
  rfl

/-- Any signal of the critical override set forces the final risk level to
"critical". -/
lemma determineFinalRiskLevel_critical {sig : String} {score : ℚ}
    {signals : List String} (hc : sig ∈ criticalSignals)
    (hin : sig ∈ signals) :
    determineFinalRiskLevel score signals = "critical" := by
  unfold determineFinalRiskLevel
  have hany : (signals.any fun s => s ∈ criticalSignals) = true := by
    simp only [List.any_eq_true, decide_eq_true_eq]
    exact ⟨sig, hin, hc⟩
  simp [hany]

/-- Monotonicity of the ratio-based initial velocity score. -/
lemma elementBaseScore_mono {x y : ℚ} (hxy : x ≤ y) :
    (if x ≤ 1 then x * 0.3 else 0.3 + min (x - 1) 3 * 0.233) ≤
      (if y ≤ 1 then y * 0.3 else 0.3 + min (y - 1) 3 * 0.233) := by
  split_ifs with h1 h2 h2
  · nlinarith
  · have hm : (0 : ℚ) ≤ min (y - 1) 3 :=
      le_min (by linarith [not_le.mp h2]) (by norm_num)
    nlinarith
  · exact absurd (hxy.trans h2) h1
  · have hm : min (x - 1) 3 ≤ min (y - 1) 3 :=
      min_le_min (by linarith) le_rfl
    nlinarith

/-- For a positive 180-day count, the recency-spike test of
`_calculate_element_score` is the integer comparison n < 2·u30. -/
lemma recency_condition_iff {u30 n : ℕ} (hn : 0 < n) :
    ((u30 : ℚ) / (n : ℚ) > 0.5) ↔ (n < 2 * u30) := by
  have hnq : (0 : ℚ) < (n : ℚ) := by exact_mod_cast hn
  rw [gt_iff_lt, lt_div_iff hnq]
  constructor
  · intro h
    have : (n : ℚ) < 2 * (u30 : ℚ) := by linarith
    exact_mod_cast this
  · intro h
    have : (n : ℚ) < 2 * (u30 : ℚ) := by exact_mod_cast h
    linarith

/-! ## Claim theorems -/

/-- C1: whenever any of SSN_DOB_MISMATCH, DEATH_MASTER_MATCH, SHARED_SSN or
FRAUD_DEVICE appears in the returned signal list of
`EnsembleDetector.analyze` — in particular SHARED_SSN — the returned
`final_risk_level` is "critical", regardless of the numeric score. -/
theorem ensemble_critical_signal_override
    (E : EnsembleDetectorState) (iid ssn : String) (age : ℚ)
    (ah ph em : String) (fp : Option String) (aid : Option String)
    (seq : Option CreditSequence) (ss : Option SsnSignals)
    (gf : Option GraphFeatureSignals) (sig : String)
    (hc : sig ∈ criticalSignals)
    (hin : sig ∈ (ensembleAnalyze E iid ssn age ah ph em fp aid seq ss
      gf).all_signals) :
    (ensembleAnalyze E iid ssn age ah ph em fp aid seq ss
      gf).final_risk_level = "critical" := by
  rw [ensembleAnalyze_all_signals_eq, List.mem_dedup] at hin
  rw [ensembleAnalyze_level_eq]
  exact determineFinalRiskLevel_critical hc hin

/-- Witness for C1: a default-collaborator ensemble run fed graph features
with one shared SSN produces SHARED_SSN in `all_signals` and the override
fires. -/
theorem ensemble_critical_signal_override_witness :
    "SHARED_SSN" ∈ criticalSignals ∧
    "SHARED_SSN" ∈ (ensembleAnalyze {} "id-1" "ssn-1" 25 "a" "p" "e" none
      none none none (some { shared_ssn_count := 1 })).all_signals ∧
    (ensembleAnalyze {} "id-1" "ssn-1" 25 "a" "p" "e" none none none none
      (some { shared_ssn_count := 1 })).final_risk_level = "critical" :=
  ⟨by decide, by decide,
    ensemble_critical_signal_override {} "id-1" "ssn-1" 25 "a" "p" "e" none
      none none none (some { shared_ssn_count := 1 }) "SHARED_SSN"
      (by decide) (by decide)⟩

/-- C10: `SyntheticScorer.score` never consults the loaded model — a scorer
with a model and one without produce identical results on every input. -/
theorem synthetic_score_model_independent (m : Option SyntheticModel)
    (iid : String) (ssn : SsnSignals) (g : GraphFeatureSignals)
    (vel : VelocitySignals) (credit : CreditSignals) (device : DeviceSignals) :
    syntheticScore (mkSyntheticScorer m) iid ssn g vel credit device =
      syntheticScore (mkSyntheticScorer none) iid ssn g vel credit device :=
  rfl

/-- C9: an identity absent from the sharing graph gets the defined empty
baseline: all-zero features, 15-entry zero vector, cluster_size = 1. -/
theorem graph_absent_identity_empty_features (G : FeatureGraph)
    (m : GraphMetrics) (iid : String) (h : iid ∉ G.nodes) :
    extractFeatures G m iid = emptyFeatures iid ∧
    (emptyFeatures iid).degree = 0 ∧
    (emptyFeatures iid).weighted_degree = 0 ∧
    (emptyFeatures iid).clustering_coefficient = 0 ∧
    (emptyFeatures iid).betweenness_centrality = 0 ∧
    (emptyFeatures iid).pagerank = 0 ∧
    (emptyFeatures iid).shared_ssn_count = 0 ∧
    (emptyFeatures iid).shared_address_count = 0 ∧
    (emptyFeatures iid).shared_phone_count = 0 ∧
    (emptyFeatures iid).shared_email_count = 0 ∧
    (emptyFeatures iid).shared_device_count = 0 ∧
    (emptyFeatures iid).cluster_size = 1 ∧
    (emptyFeatures iid).cluster_density = 0 ∧
    (emptyFeatures iid).neighbor_avg_synthetic_score = 0 ∧
    (emptyFeatures iid).neighbor_max_synthetic_score = 0 ∧
    (emptyFeatures iid).high_risk_neighbor_count = 0 ∧
    (emptyFeatures iid).feature_vector = List.replicate 15 0 ∧
    (emptyFeatures iid).feature_vector.length = 15 := by
  refine ⟨?_, rfl, rfl, rfl, rfl, rfl, rfl, rfl, rfl, rfl, rfl, rfl, rfl,
    rfl, rfl, rfl, rfl, rfl⟩
  unfold extractFeatures
  rw [if_neg h]

/-- Witness for C9: a ghost identity absent from a two-node graph. -/
theorem graph_absent_identity_empty_features_witness :
    "ghost" ∉ (⟨["a", "b"], [("a", "b", [RelType.HAS_SSN])], fun _ => 0,
      fun _ => none⟩ : FeatureGraph).nodes ∧
    extractFeatures ⟨["a", "b"], [("a", "b", [RelType.HAS_SSN])], fun _ => 0,
      fun _ => none⟩ ⟨fun _ => 0, fun _ => 0⟩ "ghost" = emptyFeatures "ghost" :=
  ⟨by decide,
    (graph_absent_identity_empty_features _ ⟨fun _ => 0, fun _ => 0⟩ "ghost"
      (by decide)).1⟩

/-- C4 counterexample: with `unique_identities_30d = 3` held fixed, raising
`unique_identities_180d` from 5 to 6 (address threshold 5) disables the 1.2×
recency boost and the velocity score strictly decreases (0.36 to 0.3466). -/
theorem velocity_monotonicity_counterexample :
    (⟨"h", 3, 0, 5, 0, 0, 1⟩ : ElementVelocity).unique_identities_180d ≤
      (⟨"h", 3, 0, 6, 0, 0, 1⟩ : ElementVelocity).unique_identities_180d ∧
    calculateElementScore {} .address ⟨"h", 3, 0, 5, 0, 0, 1⟩ = 9 / 25 ∧
    calculateElementScore {} .address ⟨"h", 3, 0, 6, 0, 0, 1⟩ = 1733 / 5000 ∧
    calculateElementScore {} .address ⟨"h", 3, 0, 6, 0, 0, 1⟩ <
      calculateElementScore {} .address ⟨"h", 3, 0, 5, 0, 0, 1⟩ := by
  refine ⟨by norm_num, by decide, by decide, by decide⟩

/-- C4 amended: the per-element velocity score is monotone non-decreasing in
`unique_identities_180d` (all other inputs fixed) provided the recency-spike
test (180-day count below twice the 30-day count) gives the same verdict at
both points. -/
theorem velocity_monotone_when_recency_stable (s : VelocitySettings)
    (etype : ElementType) (hash : String) (u30 u90a u90b s30 s90 ssns a b : ℕ)
    (hab : a ≤ b) (hrec : (a < 2 * u30) ↔ (b < 2 * u30)) :
    calculateElementScore s etype ⟨hash, u30, u90a, a, s30, s90, ssns⟩ ≤
      calculateElementScore s etype ⟨hash, u30, u90b, b, s30, s90, ssns⟩ := by
  by_cases ha1 : a ≤ 1
  · have h0 : calculateElementScore s etype ⟨hash, u30, u90a, a, s30, s90,
        ssns⟩ = 0 := by
      unfold calculateElementScore
      exact if_pos ha1
    rw [h0]
    exact (calculateElementScore_mem s etype _).1
  · have hb1 : ¬b ≤ 1 := fun hb => ha1 (hab.trans hb)
    have ha0 : 0 < a := by omega
    have hb0 : 0 < b := by omega
    unfold calculateElementScore
    rw [if_neg ha1, if_neg hb1]
    have hdiv : (a : ℚ) / (velocityThreshold s etype : ℚ) ≤
        (b : ℚ) / (velocityThreshold s etype : ℚ) := by
      rcases Nat.eq_zero_or_pos (velocityThreshold s etype) with ht | ht
      · rw [ht]
        norm_num
      · have htq : (0 : ℚ) < (velocityThreshold s etype : ℚ) := by
          exact_mod_cast ht
        exact (div_le_div_right htq).mpr (by exact_mod_cast hab)
    have hbase := elementBaseScore_mono hdiv
    refine min_le_min le_rfl ?_
    have hafter : ∀ x y : ℚ, x ≤ y →
        (if 1 < ssns then x + min 0.2 (((ssns : ℚ) - 1) * 0.05) else x) ≤
          (if 1 < ssns then y + min 0.2 (((ssns : ℚ) - 1) * 0.05) else y) := by
      intro x y hxy
      split_ifs <;> linarith
    have hstep := hafter _ _ hbase
    have hconda : (0 < a ∧ (u30 : ℚ) / (a : ℚ) > 0.5) ↔ a < 2 * u30 := by
      rw [recency_condition_iff ha0]
      exact and_iff_right ha0
    have hcondb : (0 < b ∧ (u30 : ℚ) / (b : ℚ) > 0.5) ↔ b < 2 * u30 := by
      rw [recency_condition_iff hb0]
      exact and_iff_right hb0
    by_cases hrb : b < 2 * u30
    · rw [if_pos (hconda.mpr (hrec.mpr hrb)), if_pos (hcondb.mpr hrb)]
      nlinarith
    · rw [if_neg (fun hx => hrb (hrec.mp (hconda.mp hx))),
        if_neg (fun hx => hrb (hcondb.mp hx))]
      exact hstep

/-- Witness for C4 amended: address element, 30-day count 1, 180-day count
raised from 4 to 5 (recency test false at both). -/
theorem velocity_monotone_when_recency_stable_witness :
    calculateElementScore {} .address ⟨"h", 1, 0, 4, 0, 0, 1⟩ ≤
      calculateElementScore {} .address ⟨"h", 1, 0, 5, 0, 0, 1⟩ :=
  velocity_monotone_when_recency_stable {} .address "h" 1 0 0 0 0 1 4 5
    (by norm_num) (by omega)

/-- C8 counterexample: a single identity in 180 days is a nonzero count
below the address threshold 5, yet the velocity score is 0, not positive
(the code returns 0 whenever the count is at most 1). -/
theorem velocity_below_threshold_not_positive :
    0 < (⟨"h", 1, 0, 1, 0, 0, 1⟩ : ElementVelocity).unique_identities_180d ∧
    (⟨"h", 1, 0, 1, 0, 0, 1⟩ : ElementVelocity).unique_identities_180d <
      velocityThreshold {} .address ∧
    calculateElementScore {} .address ⟨"h", 1, 0, 1, 0, 0, 1⟩ = 0 := by
  refine ⟨by norm_num, by decide, by decide⟩

/-- C8 amended: for 2 ≤ n ≤ threshold with a single SSN and no recency
spike, the element velocity score is exactly (n/threshold)·0.3 — positive,
and exactly 0.3 at the threshold (within the spec's 0.3–0.4 band); counts of
at most 1 score 0. -/
theorem velocity_linear_below_threshold (etype : ElementType) (hash : String)
    (u30 u90 s30 s90 n : ℕ) (h2 : 2 ≤ n)
    (hT : n ≤ velocityThreshold {} etype) (hrec : 2 * u30 ≤ n) :
    calculateElementScore {} etype ⟨hash, u30, u90, n, s30, s90, 1⟩ =
      (n : ℚ) / (velocityThreshold {} etype : ℚ) * 0.3 ∧
    0 < calculateElementScore {} etype ⟨hash, u30, u90, n, s30, s90, 1⟩ ∧
    (n = velocityThreshold {} etype →
      calculateElementScore {} etype ⟨hash, u30, u90, n, s30, s90, 1⟩ = 0.3) := by
  have hn1 : ¬n ≤ 1 := by omega
  have hT0 : 0 < velocityThreshold {} etype := by omega
  have hTq : (0 : ℚ) < (velocityThreshold {} etype : ℚ) := by exact_mod_cast hT0
  have hratio : (n : ℚ) / (velocityThreshold {} etype : ℚ) ≤ 1 :=
    (div_le_one hTq).mpr (by exact_mod_cast hT)
  have hratio0 : 0 < (n : ℚ) / (velocityThreshold {} etype : ℚ) := by
    have : (0 : ℚ) < (n : ℚ) := by exact_mod_cast (by omega : 0 < n)
    positivity
  have hnorec : ¬((u30 : ℚ) / (n : ℚ) > 0.5) := by
    rw [recency_condition_iff (by omega : 0 < n)]
    omega
  have hmain : calculateElementScore {} etype ⟨hash, u30, u90, n, s30, s90, 1⟩ =
      (n : ℚ) / (velocityThreshold {} etype : ℚ) * 0.3 := by
    simp only [calculateElementScore]
    rw [if_neg hn1, if_pos hratio, if_neg (by norm_num : ¬(1 : ℕ) < 1),
      if_neg (fun hx => hnorec hx.2)]
    exact min_eq_right (by nlinarith)
  refine ⟨hmain, by rw [hmain]; nlinarith, ?_⟩
  intro hn
  rw [hmain, hn, div_self (ne_of_gt hTq)]
  norm_num

/-- Witness for C8 amended: address element at its threshold count 5 with a
single SSN and one recent identity scores exactly 0.3. -/
theorem velocity_linear_below_threshold_witness :
    calculateElementScore {} .address ⟨"h", 1, 0, 5, 0, 0, 1⟩ = 0.3 :=
  (velocity_linear_below_threshold .address "h" 1 0 0 0 5 (by norm_num)
    (by decide) (by omega)).2.2 (by decide)

/-- C3 counterexample: with no bureau connector and a claimed age of 40
years, `CreditBehaviorAnalyzer.analyze` returns `behavior_score = 0.5` and a
`THIN_FILE_OLD_IDENTITY` anomaly — not the neutral/zero result the claim
asserts (the absent credit file reads as a thin file). -/
theorem credit_no_bureau_not_neutral :
    (creditAnalyze none "id-7" "ssn-7" 40).behavior_score = 1 / 2 ∧
    (creditAnalyze none "id-7" "ssn-7" 40).anomalies =
      ["THIN_FILE_OLD_IDENTITY"] ∧
    ¬((creditAnalyze none "id-7" "ssn-7" 40).behavior_score = 0 ∧
      (creditAnalyze none "id-7" "ssn-7" 40).anomalies = []) := by
  refine ⟨by decide, by decide, by decide⟩

/-- C3 amended: no analyzer raises (all are total functions here); with
missing collaborators the velocity analyzer and AU detector degrade to
zero/neutral results, while the credit-behavior analyzer degrades to a
deterministic thin-file default: score 0.2 (0.5 with a
THIN_FILE_OLD_IDENTITY anomaly when the claimed age exceeds 35/30 years),
not a zero result. -/
theorem collaboratorless_analyzers_degrade (s : VelocitySettings)
    (iid ssn ah ph eh : String) (fp : Option String) (gp : Bool) (age : ℚ) :
    (velocityAnalyze none s iid ssn ah ph eh fp).address_velocity = 0 ∧
    (velocityAnalyze none s iid ssn ah ph eh fp).phone_velocity = 0 ∧
    (velocityAnalyze none s iid ssn ah ph eh fp).email_velocity = 0 ∧
    (velocityAnalyze none s iid ssn ah ph eh fp).device_velocity = 0 ∧
    (velocityAnalyze none s iid ssn ah ph eh fp).overall_velocity_score = 0 ∧
    (velocityAnalyze none s iid ssn ah ph eh fp).anomalies = [] ∧
    (velocityAnalyze none s iid ssn ah ph eh fp).risk_level = "minimal" ∧
    (auAnalyze none gp iid ssn).au_account_count = 0 ∧
    (auAnalyze none gp iid ssn).abuse_probability = 0 ∧
    (auAnalyze none gp iid ssn).abuse_indicators = [] ∧
    (auAnalyze none gp iid ssn).risk_level = "minimal" ∧
    (creditAnalyze none iid ssn age).is_thin_file = true ∧
    (creditAnalyze none iid ssn age).num_tradelines = 0 ∧
    (creditAnalyze none iid ssn age).behavior_score =
      (if age > 35 then 1 / 2 else 1 / 5) ∧
    (creditAnalyze none iid ssn age).anomalies =
      (if age > 30 then ["THIN_FILE_OLD_IDENTITY"] else []) := by
  have hvel : velocityAnalyze none s iid ssn ah ph eh fp =
      { identity_id := iid, address_velocity := 0, phone_velocity := 0,
        email_velocity := 0, device_velocity := 0,
        overall_velocity_score := 0, anomalies := [],
        risk_level := "minimal" } := by
    cases fp <;>
      norm_num [velocityAnalyze, getElementVelocityScore,
        calculateOverallScore, identifyAnomalies, determineVelocityRiskLevel]
  have hau : auAnalyze none gp iid ssn =
      { identity_id := iid, ssn_hash := ssn, au_account_count := 0,
        unrelated_au_count := 0, au_accounts := [], abuse_probability := 0,
        abuse_indicators := [], risk_level := "minimal" } := by
    cases gp <;>
      norm_num [auAnalyze, getAuAccounts, countUnrelatedAu,
        identifyAbuseIndicators, calculateAbuseProbability,
        determineAuRiskLevel]
  have hanoms : (creditAnalyze none iid ssn age).anomalies =
      (if age > 30 then ["THIN_FILE_OLD_IDENTITY"] else []) := by
    norm_num [creditAnalyze, getFileAge, getTradelineCount,
      getAuAccountCount, calculateCreditVelocity]
  have hscore : (creditAnalyze none iid ssn age).behavior_score =
      (if age > 35 then 1 / 2 else 1 / 5) := by
    norm_num [creditAnalyze, getFileAge, getTradelineCount,
      getAuAccountCount, calculateCreditVelocity, calculateBehaviorScore]
    have hne : ¬("FILE_AGE_MISMATCH" = "THIN_FILE_OLD_IDENTITY") := by decide
    by_cases h35 : age > 35
    · have h30 : age > 30 := by linarith
      norm_num [h35, h30, hne]
    · by_cases h30 : age > 30 <;> norm_num [h35, h30, hne]
  exact ⟨by rw [hvel], by rw [hvel], by rw [hvel], by rw [hvel],
    by rw [hvel], by rw [hvel], by rw [hvel], by rw [hau], by rw [hau],
    by rw [hau], by rw [hau], rfl, rfl, hscore, hanoms⟩

/-- C5: the ensemble final score is the weighted sum synthetic 0.40,
velocity 0.20, credit 0.15, AU 0.15, bust-out 0.10 capped at 1; with no
bust-out prediction the partial sum is divided by 0.9 instead; and a
bust-out prediction exists exactly when a non-empty account id and a credit
sequence were supplied. -/
theorem ensemble_weighted_sum_with_renormalization
    (E : EnsembleDetectorState) (iid ssn : String) (age : ℚ)
    (ah ph em : String) (fp : Option String) (aid : Option String)
    (seq : Option CreditSequence) (ss : Option SsnSignals)
    (gf : Option GraphFeatureSignals) :
    ((ensembleAnalyze E iid ssn age ah ph em fp aid seq ss
        gf).final_risk_score =
      match (ensembleAnalyze E iid ssn age ah ph em fp aid seq ss
          gf).bust_out_prediction with
      | some b =>
        min 1 ((ensembleAnalyze E iid ssn age ah ph em fp aid seq ss
            gf).synthetic_score.score * 0.40 +
          (ensembleAnalyze E iid ssn age ah ph em fp aid seq ss
            gf).velocity_analysis.overall_velocity_score * 0.20 +
          (ensembleAnalyze E iid ssn age ah ph em fp aid seq ss
            gf).credit_behavior.behavior_score * 0.15 +
          (ensembleAnalyze E iid ssn age ah ph em fp aid seq ss
            gf).au_analysis.abuse_probability * 0.15 +
          b.bust_out_probability * 0.10)
      | none =>
        min 1 (((ensembleAnalyze E iid ssn age ah ph em fp aid seq ss
            gf).synthetic_score.score * 0.40 +
          (ensembleAnalyze E iid ssn age ah ph em fp aid seq ss
            gf).velocity_analysis.overall_velocity_score * 0.20 +
          (ensembleAnalyze E iid ssn age ah ph em fp aid seq ss
            gf).credit_behavior.behavior_score * 0.15 +
          (ensembleAnalyze E iid ssn age ah ph em fp aid seq ss
            gf).au_analysis.abuse_probability * 0.15) / 0.9)) ∧
    ((ensembleAnalyze E iid ssn age ah ph em fp aid seq ss
        gf).bust_out_prediction.isSome =
      (accountIdTruthy aid && seq.isSome)) := by
  constructor
  · rw [ensembleAnalyze_final_score_eq]
    cases hbo : (ensembleAnalyze E iid ssn age ah ph em fp aid seq ss
        gf).bust_out_prediction <;>
      simp only [calculateFinalScore, hbo]
  · rw [ensembleAnalyze_bustout_eq]
    rcases aid with _ | a <;> rcases seq with _ | sq <;>
      simp [accountIdTruthy] <;> split_ifs <;> simp_all

/-- C6: the cluster score is computed exactly as the spec's formula states
(+0.5 for SSN sharing, +0.2 when phone edges exceed members, +0.15 for
device sharing, density × 0.15, size bonus, capped at 1); for a ring of six
identities all sharing one SSN node the score is 0.7 ≥ 0.5. -/
theorem cluster_score_formula_and_ssn_ring :
    (∀ (n : ℕ) (sh : SharedElementCounts) (d : ℚ),
      calculateClusterScore n sh d = specClusterScore n sh d) ∧
    (analyzeCluster ssnRingGraph ssnRingMembers "cluster_0").member_count = 6 ∧
    0 < (analyzeCluster ssnRingGraph ssnRingMembers
      "cluster_0").shared_elements.ssn ∧
    (analyzeCluster ssnRingGraph ssnRingMembers "cluster_0").cluster_score =
      7 / 10 ∧
    1 / 2 ≤ (analyzeCluster ssnRingGraph ssnRingMembers
      "cluster_0").cluster_score := by
  refine ⟨?_, by decide, by decide, by decide, by decide⟩
  intro n sh d
  simp only [calculateClusterScore, specClusterScore]
  split_ifs <;> ring_nf

/-- C7 counterexample: the 12-month sequence carrying exactly the claim's
balances (1000 → 6500, strictly rising) and payments (500 → 170, strictly
falling) but no utilization or cash-advance data yields
`bust_out_probability = 0.25`, not > 0.5 (`DECLINING_PAYMENTS` does fire). -/
theorem bare_bustout_sequence_low_probability :
    List.Chain' (fun a b => a < b) bareBustOutSequence.monthly_balances ∧
    bareBustOutSequence.monthly_balances.headD 0 = 1000 ∧
    bareBustOutSequence.monthly_balances.getLastD 0 = 6500 ∧
    bareBustOutSequence.monthly_balances.length = 12 ∧
    List.Chain' (fun a b => b < a) bareBustOutSequence.monthly_payments ∧
    bareBustOutSequence.monthly_payments.headD 0 = 500 ∧
    bareBustOutSequence.monthly_payments.getLastD 0 = 170 ∧
    (bustOutPredict none {} "ACCT-000001" "id-9" bareBustOutSequence
      none).bust_out_probability = 1 / 4 ∧
    ¬((bustOutPredict none {} "ACCT-000001" "id-9" bareBustOutSequence
      none).bust_out_probability > 1 / 2) ∧
    "DECLINING_PAYMENTS" ∈ (bustOutPredict none {} "ACCT-000001" "id-9"
      bareBustOutSequence none).warning_signals := by
  refine ⟨by norm_num [bareBustOutSequence], by decide, by decide, by decide,
    by norm_num [bareBustOutSequence], by decide, by decide, by decide,
    by decide, by decide⟩

/-- C7 amended: with the repository's full canonical bust-out pattern (same
balances and payments plus the 0.3 + 0.06/month utilization ramp and four
late cash advances of 1000), the rule-based predictor returns
`bust_out_probability = 0.95 > 0.5` with `DECLINING_PAYMENTS` among the
warning signals. -/
theorem canonical_bustout_scenario :
    (bustOutPredict none {} "ACCT-000001" "id-9" canonicalBustOutSequence
      none).bust_out_probability = 19 / 20 ∧
    (bustOutPredict none {} "ACCT-000001" "id-9" canonicalBustOutSequence
      none).bust_out_probability > 1 / 2 ∧
    "DECLINING_PAYMENTS" ∈ (bustOutPredict none {} "ACCT-000001" "id-9"
      canonicalBustOutSequence none).warning_signals := by
  refine ⟨by decide, by decide, by decide⟩

/-- C2: every component score (SSN, graph, velocity, credit, device), the
synthetic score (default weights), each element velocity score, the overall
velocity score, the credit behavior score, the AU abuse probability, the
rule-based bust-out probability, and the ensemble final score all lie in
[0,1]. The velocity-signal payload hypotheses hold automatically for values
produced by the velocity analyzer. -/
theorem scores_in_unit_interval :
    (∀ sig : SsnSignals, 0 ≤ scoreSsnSignals sig ∧ scoreSsnSignals sig ≤ 1) ∧
    (∀ f : GraphFeatureSignals,
      0 ≤ scoreGraphFeatures f ∧ scoreGraphFeatures f ≤ 1) ∧
    (∀ v : VelocitySignals, 0 ≤ v.address_velocity_score →
      0 ≤ v.phone_velocity_score → 0 ≤ v.email_velocity_score →
      0 ≤ scoreVelocity v ∧ scoreVelocity v ≤ 1) ∧
    (∀ c : CreditSignals,
      0 ≤ scoreCreditBehavior c ∧ scoreCreditBehavior c ≤ 1) ∧
    (∀ d : DeviceSignals, 0 ≤ scoreDevice d ∧ scoreDevice d ≤ 1) ∧
    (∀ (s : VelocitySettings) (etype : ElementType) (v : ElementVelocity),
      0 ≤ calculateElementScore s etype v ∧
        calculateElementScore s etype v ≤ 1) ∧
    (∀ (store : Option VelocityStore) (s : VelocitySettings)
      (iid ssn ah ph eh : String) (fp : Option String),
      0 ≤ (velocityAnalyze store s iid ssn ah ph eh
        fp).overall_velocity_score ∧
      (velocityAnalyze store s iid ssn ah ph eh fp).overall_velocity_score ≤ 1) ∧
    (∀ (bureau : Option BureauData) (iid ssn : String) (age : ℚ),
      0 ≤ (creditAnalyze bureau iid ssn age).behavior_score ∧
        (creditAnalyze bureau iid ssn age).behavior_score ≤ 1) ∧
    (∀ (bureau : Option BureauData) (gp : Bool) (iid ssn : String),
      0 ≤ (auAnalyze bureau gp iid ssn).abuse_probability ∧
        (auAnalyze bureau gp iid ssn).abuse_probability ≤ 1) ∧
    (∀ (m : Option SyntheticModel) (iid : String) (sig : SsnSignals)
      (g : GraphFeatureSignals) (vel : VelocitySignals) (c : CreditSignals)
      (d : DeviceSignals), 0 ≤ vel.address_velocity_score →
      0 ≤ vel.phone_velocity_score → 0 ≤ vel.email_velocity_score →
      0 ≤ (syntheticScore (mkSyntheticScorer m) iid sig g vel c d).score ∧
        (syntheticScore (mkSyntheticScorer m) iid sig g vel c d).score ≤ 1) ∧
    (∀ (bs : BustOutSettings) (aid iid : String) (seq : CreditSequence)
      (syn : Option ℚ),
      0 ≤ (bustOutPredict none bs aid iid seq syn).bust_out_probability ∧
        (bustOutPredict none bs aid iid seq syn).bust_out_probability ≤ 1) ∧
    (∀ (store : Option VelocityStore) (vset : VelocitySettings)
      (cb ab : Option BureauData) (gp : Bool) (sm : Option SyntheticModel)
      (bset : BustOutSettings) (iid ssn : String) (age : ℚ)
      (ah ph em : String) (fp aid : Option String)
      (seq : Option CreditSequence) (ss : Option SsnSignals)
      (gf : Option GraphFeatureSignals),
      0 ≤ (ensembleAnalyze ⟨store, vset, cb, ab, gp, {}, sm, none, bset⟩
        iid ssn age ah ph em fp aid seq ss gf).final_risk_score ∧
      (ensembleAnalyze ⟨store, vset, cb, ab, gp, {}, sm, none, bset⟩
        iid ssn age ah ph em fp aid seq ss gf).final_risk_score ≤ 1) := by
  refine ⟨scoreSsnSignals_mem, scoreGraphFeatures_mem,
    fun v ha hp he => scoreVelocity_mem v ha hp he, scoreCreditBehavior_mem,
    scoreDevice_mem, calculateElementScore_mem, velocityAnalyze_overall_mem,
    creditAnalyze_score_mem, auAnalyze_prob_mem,
    fun m iid sig g vel c d ha hp he =>
      syntheticScore_default_mem m iid sig g vel c d ha hp he,
    bustOutPredict_prob_mem, ?_⟩
  intro store vset cb ab gp sm bset iid ssn age ah ph em fp aid seq ss gf
  rw [ensembleAnalyze_final_score_eq]
  refine calculateFinalScore_mem _ _ _ _ _ ?_ ?_ ?_ ?_ ?_
  · rw [ensembleAnalyze_synthetic_eq]
    exact (syntheticScore_default_mem sm iid _ _ _ _ _
      (velocityAnalyze_address_mem store vset iid ssn ah ph em fp).1
      (velocityAnalyze_phone_mem store vset iid ssn ah ph em fp).1
      (velocityAnalyze_email_mem store vset iid ssn ah ph em fp).1).1
  · rw [ensembleAnalyze_velocity_eq]
    exact (velocityAnalyze_overall_mem store vset iid ssn ah ph em fp).1
  · rw [ensembleAnalyze_credit_eq]
    exact (creditAnalyze_score_mem cb iid ssn age).1
  · rw [ensembleAnalyze_au_eq]
    exact (auAnalyze_prob_mem ab gp iid ssn).1
  · intro b hb
    rw [ensembleAnalyze_bustout_eq, Option.mem_def] at hb
    rcases aid with _ | a
    · simp [accountIdTruthy] at hb
    · rcases seq with _ | sq
      · simp [accountIdTruthy] at hb
      · split at hb
        · simp only [Option.some.injEq] at hb
          rw [← hb]
          exact (bustOutPredict_prob_mem bset a iid sq _).1
        · simp at hb

/-- Witness for C2: the velocity component and synthetic score bounds
instantiated at the empty (all-default) signal payloads. -/
theorem scores_in_unit_interval_witness :
    (0 ≤ scoreVelocity {} ∧ scoreVelocity {} ≤ 1) ∧
    (0 ≤ (syntheticScore (mkSyntheticScorer none) "w" {} {} {} {} {}).score ∧
      (syntheticScore (mkSyntheticScorer none) "w" {} {} {} {} {}).score ≤ 1) :=
  ⟨scores_in_unit_interval.2.2.1 {} le_rfl le_rfl le_rfl,
    scores_in_unit_interval.2.2.2.2.2.2.2.2.2.1 none "w" {} {} {} {} {}
      le_rfl le_rfl le_rfl⟩

end FraudDetection
